import Mathlib

/-!
Shallow embedding of the libbgp core under verification: the path-attribute
codec (`src/unnamed/part_000`, `src/src/bgp-path-attrib.h`), the UPDATE
message operations (`src/src/protocol/bgp-update-message.cc`) and the IPv6
RIB (`src/src/bgp-rib6.cc`).  Machine integers are modelled as `Nat`, with
explicit `% 2 ^ w` wherever the source's fixed-width arithmetic can wrap.
Fallible operations return `Except (Nat × Nat) _` carrying the
`(err_code, err_subcode)` pair that the source records via `setError`
(`(0, 0)` when the source returns failure without recording an error).
-/

deriving instance DecidableEq for Except

namespace LibBgp

/-! ## Attribute type codes (bgp-path-attrib.h, enum BgpPathAttribType) -/

def ORIGIN : Nat := 1
def AS_PATH : Nat := 2
def NEXT_HOP : Nat := 3
def MULTI_EXIT_DISC : Nat := 4
def LOCAL_PREF : Nat := 5
def ATOMIC_AGGREGATE : Nat := 6
def AGGREATOR : Nat := 7
def COMMUNITY : Nat := 8
def AS4_PATH : Nat := 17
def AS4_AGGREGATOR : Nat := 18

/-! ## Segment types (bgp-path-attrib.h, enum BgpAsPathSegmentType) -/

def AS_SET : Nat := 1
def AS_SEQUENCE : Nat := 2

/-! ## Error codes (bgp-errcode.h) -/

def E_UNSPEC : Nat := 0
def E_HEADER : Nat := 1
def E_OPEN : Nat := 2
def E_UPDATE : Nat := 3

def E_LENGTH : Nat := 2

def E_UNSPEC_UPDATE : Nat := 0
def E_ATTR_LIST : Nat := 1
def E_BAD_WELL_KNOWN : Nat := 2
def E_MISS_WELL_KNOWN : Nat := 3
def E_ATTR_FLAG : Nat := 4
def E_ATTR_LEN : Nat := 5
def E_ORIGIN_ERR : Nat := 6
def E_AS_PATH_ERR : Nat := 11

/-! ## Byte-buffer primitives (value-op.h getValue/putValue, memcpy)

A byte buffer is a `List Nat`; reads beyond the end default to 0 (the source
never reads past the bounds it has checked, so the default is never
observable on the checked paths). -/

def byteAt (buf : List Nat) (i : Nat) : Nat := buf.getD i 0

/-- Big-endian read of `width` bytes at `off` (getValue + ntoh). -/
def readBE (buf : List Nat) (off width : Nat) : Nat :=
  (List.range width).foldl (fun acc k => acc * 256 + byteAt buf (off + k)) 0

/-- 16-bit big-endian read (ntohs of getValue). -/
def read16 (buf : List Nat) (off : Nat) : Nat :=
  byteAt buf off * 256 + byteAt buf (off + 1)

/-- `memcpy(&prefix, buffer, n)` into a host-order (little-endian) uint32. -/
def readLE (buf : List Nat) (off width : Nat) : Nat :=
  (List.range width).foldl (fun acc k => acc + byteAt buf (off + k) * 256 ^ k) 0

/-! ## Data model -/

/-- An `AS_PATH`/`AS4_PATH` segment (bgp-path-attrib.h, class BgpAsPathSegment). -/
structure BgpAsPathSegment where
  is_4b : Bool
  type : Nat
  value : List Nat
deriving DecidableEq, Repr

/-- The path-attribute family (bgp-path-attrib.h class hierarchy), as a tagged
union over the variant payloads.  The common header flag bits are handled by
the byte-level parsers below; none of the message-level operations under
verification (validateAttribs, addAttrib, restoreAsPath, downgradeAsPath, the
RIB) reads or writes them, so they are not part of the in-memory variant. -/
inductive BgpPathAttrib where
  | origin (origin : Nat)
  | asPath (is_4b : Bool) (as_paths : List BgpAsPathSegment)
  | nexthop (next_hop : Nat)
  | med (med : Nat)
  | localPref (local_pref : Nat)
  | atomicAggregate
  | aggregator (is_4b : Bool) (aggr asn : Nat)
  | community (community : Nat)
  | as4path (as4_paths : List BgpAsPathSegment)
  | as4aggregator (aggr asn4 : Nat)
  | unknown (tc : Nat) (value : List Nat)
deriving DecidableEq, Repr

/-- `type_code` field of each attribute class (fixed by its constructor in the
source; for the base/unknown attribute it is whatever was parsed). -/
def BgpPathAttrib.type_code : BgpPathAttrib → Nat
  | .origin _ => ORIGIN
  | .asPath _ _ => AS_PATH
  | .nexthop _ => NEXT_HOP
  | .med _ => MULTI_EXIT_DISC
  | .localPref _ => LOCAL_PREF
  | .atomicAggregate => ATOMIC_AGGREGATE
  | .aggregator _ _ _ => AGGREATOR
  | .community _ => COMMUNITY
  | .as4path _ => AS4_PATH
  | .as4aggregator _ _ => AS4_AGGREGATOR
  | .unknown tc _ => tc

/-- An IPv4 route (bgp-route.h, class Route): host-order address plus CIDR
length.  The source field `prefix` is named `pfx` here. -/
structure Route where
  pfx : Nat
  length : Nat
deriving DecidableEq, Repr

/-! ## Attribute header parsing (unnamed/part_000) -/

/-- Parsed header state of `BgpPathAttrib` (the flag bits and length that
`parseHeader` fills in). -/
structure AttrHeader where
  optionalFlag : Bool
  transitiveFlag : Bool
  partialFlag : Bool
  extendedFlag : Bool
  type_code : Nat
  value_len : Nat
deriving DecidableEq, Repr

/-- `BgpPathAttrib::parseHeader` (unnamed/part_000 lines 26-57).  Reads the
flags byte, the type code and a single length byte, and rejects a declared
length that overflows the remaining buffer with `(E_UPDATE, E_UNSPEC_UPDATE)`.
On success the source returns the constant 2. -/
def BgpPathAttrib.parseHeader (buf : List Nat) (sz : Nat) :
    Except (Nat × Nat) AttrHeader :=
  if sz < 3 then .error (E_UPDATE, E_UNSPEC_UPDATE)
  else
    let flags := byteAt buf 0
    let h : AttrHeader :=
      { optionalFlag := (flags >>> 7) &&& 1 == 1
        transitiveFlag := (flags >>> 6) &&& 1 == 1
        partialFlag := (flags >>> 5) &&& 1 == 1
        extendedFlag := (flags >>> 4) &&& 1 == 1
        type_code := byteAt buf 1
        value_len := byteAt buf 2 }
    if h.value_len > sz - 3 then .error (E_UPDATE, E_UNSPEC_UPDATE)
    else .ok h

/-- `BgpPathAttrib::getType` (unnamed/part_000 lines 10-13): the type code is
the second byte; fails when fewer than 3 bytes remain. -/
def BgpPathAttrib.getType (buf : List Nat) (sz : Nat) : Option Nat :=
  if sz < 3 then none else some (byteAt buf 1)

/-- `BgpPathAttribOrigin::parse` (unnamed/part_000 lines 149-181).  The source
opens with `if (parseHeader(from, length) != 3) return -1;`.  `parseHeader`
returns 2 on success (never 3), so this guard always takes the early return,
and since `setError` was not called on that path the recorded error state is
still the constructor-initialized `(0, 0)`.  The remainder of the body is kept
for fidelity but is unreachable. -/
def BgpPathAttribOrigin.parse (buf : List Nat) (sz : Nat) :
    Except (Nat × Nat) (BgpPathAttrib × Nat) :=
  match BgpPathAttrib.parseHeader buf sz with
  | .error e => .error e
  | .ok h =>
    if (2 : Nat) ≠ 3 then .error (0, 0)
    else if h.value_len < 1 then .error (E_UPDATE, E_UNSPEC_UPDATE)
    else if h.value_len ≠ 1 then .error (E_UPDATE, E_ATTR_LEN)
    else if h.optionalFlag || !h.transitiveFlag then .error (E_UPDATE, E_ATTR_FLAG)
    else if byteAt buf 3 > 2 then .error (E_UPDATE, E_ORIGIN_ERR)
    else .ok (.origin (byteAt buf 3), 4)

/-- `BgpPathAttribUnknow::parse` (unnamed/part_000 lines 107-129).  Same
`!= 3` guard as the other variants: always fails with no error recorded. -/
def BgpPathAttribUnknow.parse (buf : List Nat) (sz : Nat) :
    Except (Nat × Nat) (BgpPathAttrib × Nat) :=
  match BgpPathAttrib.parseHeader buf sz with
  | .error e => .error e
  | .ok h =>
    if (2 : Nat) ≠ 3 then .error (0, 0)
    else if !h.optionalFlag && h.transitiveFlag then .error (E_UPDATE, E_BAD_WELL_KNOWN)
    else .ok (.unknown h.type_code ((buf.drop 3).take h.value_len), sz)

/-- Read `n` ASNs of `width` bytes each, big-endian, starting at `off`
(the getValue calls in the AS_PATH segment loop). -/
def readAsnList (buf : List Nat) (width : Nat) : Nat → Nat → List Nat
  | _, 0 => []
  | off, n + 1 => readBE buf off width :: readAsnList buf width (off + width) n

/-- Segment loop of `BgpPathAttribAsPath::parse` (unnamed/part_000 lines
250-285).  `parsed_len` is a `uint8_t` in the source and `asns_length` is the
`uint8_t` product `n_asn * sizeof(asn)`, so both wrap at 256 (modelled with
`% 256`); the fuel argument stands in for the non-termination the wrap can
cause in the source.  Returns the segments and the final `parsed_len`. -/
def asPathSegsGo (is4b : Bool) (buf : List Nat) :
    Nat → Nat → Nat → Nat → List BgpAsPathSegment →
    Except (Nat × Nat) (List BgpAsPathSegment × Nat)
  | 0, _, _, _, _ => .error (E_UPDATE, E_AS_PATH_ERR)
  | fuel + 1, off, parsed, vlen, acc =>
    if parsed < vlen then
      if vlen - parsed < 3 then .error (E_UPDATE, E_AS_PATH_ERR)
      else
        let t := byteAt buf off
        let n := byteAt buf (off + 1)
        let parsed1 := (parsed + 2) % 256
        let width := if is4b then 4 else 2
        let alen := (n * width) % 256
        if parsed1 + alen > vlen then .error (E_UPDATE, E_AS_PATH_ERR)
        else
          asPathSegsGo is4b buf fuel (off + 2 + width * n) ((parsed1 + alen) % 256)
            vlen (acc ++ [⟨is4b, t, readAsnList buf width (off + 2) n⟩])
    else .ok (acc, parsed)

/-- `BgpPathAttribAsPath::parse` (unnamed/part_000 lines 234-290).  Same
`!= 3` guard as the other variants: always fails with no error recorded; the
body is kept for fidelity. -/
def BgpPathAttribAsPath.parse (is4b : Bool) (buf : List Nat) (sz : Nat) :
    Except (Nat × Nat) (BgpPathAttrib × Nat) :=
  match BgpPathAttrib.parseHeader buf sz with
  | .error e => .error e
  | .ok h =>
    if (2 : Nat) ≠ 3 then .error (0, 0)
    else if h.optionalFlag || !h.transitiveFlag then .error (E_UPDATE, E_ATTR_FLAG)
    else if h.value_len = 0 then .ok (.asPath is4b [], 3)
    else
      match asPathSegsGo is4b buf (h.value_len + 1) 3 0 h.value_len [] with
      | .error e => .error e
      | .ok (segs, plen) => .ok (.asPath is4b segs, plen + 3)

/-! ## Spec-modelled attribute parsers

The parse methods of `BgpPathAttribNexthop`, `BgpPathAttribMed`,
`BgpPathAttribLocalPref`, `BgpPathAttribAtomicAggregate`,
`BgpPathAttribAggregator`, `BgpPathAttribCommunity`, `BgpPathAttribAs4Path`
and `BgpPathAttribAs4Aggregator` are declared in bgp-path-attrib.h but their
definitions are not in the repository snapshot.  They are modelled from the
spec (§4.1): header of flags/type and a 1- or 2-byte length chosen by the
extended bit, `E_UPDATE/E_ATTR_LEN` when the declared length overflows the
remaining buffer, per-variant flag validation (`E_UPDATE/E_ATTR_FLAG`) and
length validation (`E_UPDATE/E_ATTR_LEN`), then the value.  Note design note
(iii) of the spec suggests the real definitions share the `!= 3` return-value
bug of the in-snapshot parsers; the theorems below hold either way, so the
success path is modelled as the spec describes it. -/

/-- Modelled from the spec: attribute header parsing for the variants whose
parser is missing from the snapshot (spec §4.1 "Header parsing"). -/
def specParseHeader (buf : List Nat) (sz : Nat) :
    Except (Nat × Nat) (AttrHeader × Nat) :=
  if sz < 3 then .error (E_UPDATE, E_UNSPEC_UPDATE)
  else
    let flags := byteAt buf 0
    let h : AttrHeader :=
      { optionalFlag := (flags >>> 7) &&& 1 == 1
        transitiveFlag := (flags >>> 6) &&& 1 == 1
        partialFlag := (flags >>> 5) &&& 1 == 1
        extendedFlag := (flags >>> 4) &&& 1 == 1
        type_code := byteAt buf 1
        value_len := 0 }
    if h.extendedFlag then
      if sz < 4 then .error (E_UPDATE, E_UNSPEC_UPDATE)
      else
        let vlen := read16 buf 2
        if vlen > sz - 4 then .error (E_UPDATE, E_ATTR_LEN)
        else .ok ({ h with value_len := vlen }, 4)
    else
      let vlen := byteAt buf 2
      if vlen > sz - 3 then .error (E_UPDATE, E_ATTR_LEN)
      else .ok ({ h with value_len := vlen }, 3)

/-- Modelled from the spec: `BgpPathAttribNexthop::parse` (missing from the
snapshot).  Well-known flag pattern, 4-byte value. -/
def specNexthopParse (buf : List Nat) (sz : Nat) :
    Except (Nat × Nat) (BgpPathAttrib × Nat) :=
  match specParseHeader buf sz with
  | .error e => .error e
  | .ok (h, hsz) =>
    if h.optionalFlag || !h.transitiveFlag then .error (E_UPDATE, E_ATTR_FLAG)
    else if h.value_len ≠ 4 then .error (E_UPDATE, E_ATTR_LEN)
    else .ok (.nexthop (readBE buf hsz 4), hsz + 4)

/-- Modelled from the spec: `BgpPathAttribMed::parse` (missing from the
snapshot).  Optional non-transitive, 4-byte value. -/
def specMedParse (buf : List Nat) (sz : Nat) :
    Except (Nat × Nat) (BgpPathAttrib × Nat) :=
  match specParseHeader buf sz with
  | .error e => .error e
  | .ok (h, hsz) =>
    if !h.optionalFlag then .error (E_UPDATE, E_ATTR_FLAG)
    else if h.value_len ≠ 4 then .error (E_UPDATE, E_ATTR_LEN)
    else .ok (.med (readBE buf hsz 4), hsz + 4)

/-- Modelled from the spec: `BgpPathAttribLocalPref::parse` (missing from the
snapshot).  Well-known flag pattern, 4-byte value. -/
def specLocalPrefParse (buf : List Nat) (sz : Nat) :
    Except (Nat × Nat) (BgpPathAttrib × Nat) :=
  match specParseHeader buf sz with
  | .error e => .error e
  | .ok (h, hsz) =>
    if h.optionalFlag || !h.transitiveFlag then .error (E_UPDATE, E_ATTR_FLAG)
    else if h.value_len ≠ 4 then .error (E_UPDATE, E_ATTR_LEN)
    else .ok (.localPref (readBE buf hsz 4), hsz + 4)

/-- Modelled from the spec: `BgpPathAttribAtomicAggregate::parse` (missing
from the snapshot).  Well-known flag pattern, empty value. -/
def specAtomicAggregateParse (buf : List Nat) (sz : Nat) :
    Except (Nat × Nat) (BgpPathAttrib × Nat) :=
  match specParseHeader buf sz with
  | .error e => .error e
  | .ok (h, hsz) =>
    if h.optionalFlag || !h.transitiveFlag then .error (E_UPDATE, E_ATTR_FLAG)
    else if h.value_len ≠ 0 then .error (E_UPDATE, E_ATTR_LEN)
    else .ok (.atomicAggregate, hsz)

/-- Modelled from the spec: `BgpPathAttribAggregator::parse` (missing from the
snapshot).  Optional transitive; value is ASN (2 or 4 bytes by session
capability) followed by a 4-byte address. -/
def specAggregatorParse (is4b : Bool) (buf : List Nat) (sz : Nat) :
    Except (Nat × Nat) (BgpPathAttrib × Nat) :=
  match specParseHeader buf sz with
  | .error e => .error e
  | .ok (h, hsz) =>
    if !h.optionalFlag || !h.transitiveFlag then .error (E_UPDATE, E_ATTR_FLAG)
    else if h.value_len ≠ (if is4b then 8 else 6) then .error (E_UPDATE, E_ATTR_LEN)
    else
      let asnw := if is4b then 4 else 2
      .ok (.aggregator is4b (readBE buf (hsz + asnw) 4) (readBE buf hsz asnw), hsz + asnw + 4)

/-- Modelled from the spec: `BgpPathAttribCommunity::parse` (missing from the
snapshot).  Optional transitive, 4-byte value. -/
def specCommunityParse (buf : List Nat) (sz : Nat) :
    Except (Nat × Nat) (BgpPathAttrib × Nat) :=
  match specParseHeader buf sz with
  | .error e => .error e
  | .ok (h, hsz) =>
    if !h.optionalFlag || !h.transitiveFlag then .error (E_UPDATE, E_ATTR_FLAG)
    else if h.value_len ≠ 4 then .error (E_UPDATE, E_ATTR_LEN)
    else .ok (.community (readBE buf hsz 4), hsz + 4)

/-- Modelled from the spec: segment parsing for `AS4_PATH` (missing from the
snapshot); segments of `{type, count, 4-byte ASNs}` filling the value. -/
def specAs4SegsGo (buf : List Nat) :
    Nat → Nat → Nat → List BgpAsPathSegment →
    Except (Nat × Nat) (List BgpAsPathSegment)
  | 0, _, _, _ => .error (E_UPDATE, E_AS_PATH_ERR)
  | fuel + 1, off, endOff, acc =>
    if off < endOff then
      if endOff - off < 2 then .error (E_UPDATE, E_AS_PATH_ERR)
      else
        let t := byteAt buf off
        let n := byteAt buf (off + 1)
        if off + 2 + 4 * n > endOff then .error (E_UPDATE, E_AS_PATH_ERR)
        else specAs4SegsGo buf fuel (off + 2 + 4 * n) endOff
          (acc ++ [⟨true, t, readAsnList buf 4 (off + 2) n⟩])
    else .ok acc

/-- Modelled from the spec: `BgpPathAttribAs4Path::parse` (missing from the
snapshot).  Optional transitive; value is a run of 4-byte segments. -/
def specAs4PathParse (buf : List Nat) (sz : Nat) :
    Except (Nat × Nat) (BgpPathAttrib × Nat) :=
  match specParseHeader buf sz with
  | .error e => .error e
  | .ok (h, hsz) =>
    if !h.optionalFlag || !h.transitiveFlag then .error (E_UPDATE, E_ATTR_FLAG)
    else
      match specAs4SegsGo buf (h.value_len + 1) hsz (hsz + h.value_len) [] with
      | .error e => .error e
      | .ok segs => .ok (.as4path segs, hsz + h.value_len)

/-- Modelled from the spec: `BgpPathAttribAs4Aggregator::parse` (missing from
the snapshot).  Optional transitive; 4-byte ASN plus 4-byte address. -/
def specAs4AggregatorParse (buf : List Nat) (sz : Nat) :
    Except (Nat × Nat) (BgpPathAttrib × Nat) :=
  match specParseHeader buf sz with
  | .error e => .error e
  | .ok (h, hsz) =>
    if !h.optionalFlag || !h.transitiveFlag then .error (E_UPDATE, E_ATTR_FLAG)
    else if h.value_len ≠ 8 then .error (E_UPDATE, E_ATTR_LEN)
    else .ok (.as4aggregator (readBE buf (hsz + 4) 4) (readBE buf hsz 4), hsz + 8)

/-! ## The UPDATE message (bgp-update-message.cc) -/

/-- `BgpUpdateMessage` (bgp-update-message.h/.cc): withdrawn routes, path
attributes (order-preserving list of shared pointers in the source, a plain
list here since all mutation is modelled functionally) and NLRI. -/
structure BgpUpdateMessage where
  use_4b_asn : Bool
  withdrawn_routes : List Route
  path_attribute : List BgpPathAttrib
  nlri : List Route
deriving DecidableEq, Repr

/-- `BgpUpdateMessage::hasAttrib` (bgp-update-message.cc lines 30-36). -/
def BgpUpdateMessage.hasAttrib (m : BgpUpdateMessage) (t : Nat) : Bool :=
  m.path_attribute.any (fun a => a.type_code == t)

/-- `BgpUpdateMessage::getAttrib` (bgp-update-message.cc lines 14-28) returns
the first attribute with the given type code; the source throws when there is
none, re-expressed as `Option` (spec §9 design note). -/
def BgpUpdateMessage.getAttrib (m : BgpUpdateMessage) (t : Nat) :
    Option BgpPathAttrib :=
  m.path_attribute.find? (fun a => a.type_code == t)

/-- `BgpUpdateMessage::addAttrib` (bgp-update-message.cc lines 38-43): reject
when an attribute of the same type code is present, else append a clone. -/
def BgpUpdateMessage.addAttrib (m : BgpUpdateMessage) (a : BgpPathAttrib) :
    Bool × BgpUpdateMessage :=
  if m.hasAttrib a.type_code then (false, m)
  else (true, { m with path_attribute := m.path_attribute ++ [a] })

/-- Body of `BgpUpdateMessage::dropAttrib` (lines 53-62): erase the first
attribute with the given type code. -/
def dropFirstAttrib : List BgpPathAttrib → Nat → List BgpPathAttrib
  | [], _ => []
  | a :: rest, t => if a.type_code = t then rest else a :: dropFirstAttrib rest t

/-- `BgpUpdateMessage::dropAttrib` (bgp-update-message.cc lines 53-62). -/
def BgpUpdateMessage.dropAttrib (m : BgpUpdateMessage) (t : Nat) :
    Bool × BgpUpdateMessage :=
  (m.hasAttrib t, { m with path_attribute := dropFirstAttrib m.path_attribute t })

/-- `BgpUpdateMessage::updateAttribute` (bgp-update-message.cc lines 77-80):
drop the first attribute of that type, then add. -/
def BgpUpdateMessage.updateAttribute (m : BgpUpdateMessage) (a : BgpPathAttrib) :
    Bool × BgpUpdateMessage :=
  (m.dropAttrib a.type_code).2.addAttrib a

/-- In-place mutation of the attribute object found by `getAttrib` (the
source mutates through the reference): replace the first attribute with the
given type code. -/
def setFirstAttrib : List BgpPathAttrib → Nat → BgpPathAttrib → List BgpPathAttrib
  | [], _, _ => []
  | a :: rest, t, b => if a.type_code = t then b :: rest else a :: setFirstAttrib rest t b

/-- Message-level wrapper for `setFirstAttrib`. -/
def BgpUpdateMessage.setAttrib (m : BgpUpdateMessage) (t : Nat)
    (b : BgpPathAttrib) : BgpUpdateMessage :=
  { m with path_attribute := setFirstAttrib m.path_attribute t b }

/-! ## validateAttribs (bgp-update-message.cc lines 344-375) -/

/-- Attribute-list walk of `BgpUpdateMessage::validateAttribs`.  The source
keeps a `uint32_t typecode_bitsmap`; note the update is
`typecode_bitsmap &= ~(1UL << type_code)` — it CLEARS the bit instead of
setting it, so the bitmap never leaves 0 and the duplicate branch can never
fire.  `~(1UL << tc)` is modelled as the 64-bit complement truncated to 32
bits (undefined in C for `tc ≥ 64`; any concretization works since the bitmap
is only ever ANDed).  Returns the result together with the recorded
`(err_code, err_subcode)` (`(0, 0)` when no error was set). -/
def validateAttribsGo :
    List BgpPathAttrib → Nat → Bool → Bool → Bool → Bool × (Nat × Nat)
  | [], _, has_origin, has_nexthop, has_as_path =>
    if has_as_path && has_nexthop && has_origin then (true, (0, 0))
    else (false, (E_UPDATE, E_MISS_WELL_KNOWN))
  | a :: rest, bitsmap, has_origin, has_nexthop, has_as_path =>
    let tc := a.type_code
    let has_as_path := if tc = AS_PATH then true else has_as_path
    let has_nexthop := if tc = NEXT_HOP then true else has_nexthop
    let has_origin := if tc = ORIGIN then true else has_origin
    if (bitsmap >>> tc) &&& 1 = 1 then (false, (E_UPDATE, E_ATTR_LIST))
    else
      validateAttribsGo rest ((bitsmap &&& ((2 ^ 64 - 1) ^^^ ((1 <<< tc) % 2 ^ 64))) % 2 ^ 32)
        has_origin has_nexthop has_as_path

/-- `BgpUpdateMessage::validateAttribs` over an attribute list. -/
def BgpUpdateMessage.validateAttribs (attrs : List BgpPathAttrib) :
    Bool × (Nat × Nat) :=
  validateAttribsGo attrs 0 false false false

/-! ## UPDATE parsing (bgp-update-message.cc lines 377-527) -/

/-- The withdrawn-routes and NLRI loops of `BgpUpdateMessage::parse` (they are
textually identical in the source).  `buf` is the byte run whose offset 0 is
the first route byte; `parsed` the running length counter; `total` the
declared section length.  The fuel stands in for the loop counter (each
iteration consumes at least the length byte, so `total + 1` fuel suffices). -/
def parseRoutesGo (buf : List Nat) :
    Nat → Nat → Nat → List Route → Except (Nat × Nat) (List Route)
  | 0, _, _, _ => .error (E_UPDATE, E_UNSPEC)
  | fuel + 1, parsed, total, acc =>
    if parsed < total then
      if total - parsed < 1 then .error (E_UPDATE, E_UNSPEC)
      else
        let route_len := byteAt buf parsed
        let parsed1 := parsed + 1
        if route_len > 32 then .error (E_UPDATE, E_UNSPEC)
        else
          let blen := (route_len + 7) / 8
          if parsed1 + blen > total then .error (E_UPDATE, E_UNSPEC)
          else
            parseRoutesGo buf fuel (parsed1 + blen) total
              (acc ++ [⟨readLE buf parsed1 blen, route_len⟩])
    else .ok acc

/-- The `switch (attr_type)` dispatch of `BgpUpdateMessage::parse`
(bgp-update-message.cc lines 456-468) followed by the virtual `parse` call:
construct the matching variant and parse with it. -/
def dispatchAttribParse (use4b : Bool) (t : Nat) (rest : List Nat) (sz : Nat) :
    Except (Nat × Nat) (BgpPathAttrib × Nat) :=
  if t = 1 then BgpPathAttribOrigin.parse rest sz            -- ORIGIN
  else if t = 2 then BgpPathAttribAsPath.parse use4b rest sz -- AS_PATH
  else if t = 3 then specNexthopParse rest sz                -- NEXT_HOP
  else if t = 4 then specMedParse rest sz                    -- MULTI_EXIT_DISC
  else if t = 5 then specLocalPrefParse rest sz              -- LOCAL_PREF
  else if t = 6 then specAtomicAggregateParse rest sz        -- ATOMIC_AGGREGATE
  else if t = 7 then specAggregatorParse use4b rest sz       -- AGGREATOR
  else if t = 8 then specCommunityParse rest sz              -- COMMUNITY
  else if t = 17 then specAs4PathParse rest sz               -- AS4_PATH
  else if t = 18 then specAs4AggregatorParse rest sz         -- AS4_AGGREGATOR
  else BgpPathAttribUnknow.parse rest sz                     -- default

/-- The attribute loop of `BgpUpdateMessage::parse` (lines 439-483): read the
type code, dispatch to the per-variant parser, advance by the bytes it
consumed, and accumulate the parsed attributes.  Fuel stands in for the loop
counter (every parser that succeeds consumes at least 3 bytes, so
`total + 1` fuel suffices). -/
def parseAttribsGo (use4b : Bool) (buf : List Nat) :
    Nat → Nat → Nat → List BgpPathAttrib →
    Except (Nat × Nat) (List BgpPathAttrib)
  | 0, _, _, _ => .error (E_UPDATE, E_UNSPEC)
  | fuel + 1, parsed, total, acc =>
    if parsed < total then
      if total - parsed < 3 then .error (E_UPDATE, E_UNSPEC)
      else
        let rest := buf.drop parsed
        let sz := total - parsed
        match BgpPathAttrib.getType rest sz with
        | none => .error (E_UPDATE, E_UNSPEC)
        | some t =>
          match dispatchAttribParse use4b t rest sz with
          | .error e => .error e
          | .ok (a, consumed) =>
            parseAttribsGo use4b buf fuel (parsed + consumed) total (acc ++ [a])
    else .ok acc

/-- `BgpUpdateMessage::parse` (bgp-update-message.cc lines 377-527): withdrawn
length and routes, attribute length and attributes, `validateAttribs`, NLRI.
Errors are the `(code, subcode)` pairs the source records. -/
def BgpUpdateMessage.parse (use4b : Bool) (buf : List Nat) :
    Except (Nat × Nat) BgpUpdateMessage :=
  let msg_sz := buf.length
  if msg_sz < 4 then .error (E_HEADER, E_LENGTH)
  else
    let withdrawn_len := read16 buf 0
    if withdrawn_len > msg_sz - 4 then .error (E_UPDATE, E_UNSPEC)
    else
      match parseRoutesGo (buf.drop 2) (withdrawn_len + 1) 0 withdrawn_len [] with
      | .error e => .error e
      | .ok withdrawn =>
        let attribute_len := read16 buf (2 + withdrawn_len)
        if attribute_len + withdrawn_len + 4 > msg_sz then .error (E_UPDATE, E_ATTR_LIST)
        else
          match parseAttribsGo use4b (buf.drop (4 + withdrawn_len)) (attribute_len + 1)
              0 attribute_len [] with
          | .error e => .error e
          | .ok attrs =>
            match BgpUpdateMessage.validateAttribs attrs with
            | (false, e) => .error e
            | (true, _) =>
              let nlri_len := msg_sz - 4 - attribute_len - withdrawn_len
              match parseRoutesGo (buf.drop (4 + withdrawn_len + attribute_len))
                  (nlri_len + 1) 0 nlri_len [] with
              | .error e => .error e
              | .ok nlriRoutes =>
                .ok { use_4b_asn := use4b, withdrawn_routes := withdrawn,
                      path_attribute := attrs, nlri := nlriRoutes }

/-! ## ASN width reconciliation (bgp-update-message.cc lines 145-279) -/

/-- Inner per-ASN loop of `BgpUpdateMessage::restoreAsPath` (lines 216-239).
`liter` is `local_iter` (the remaining part of `full_as_path`), `incr` the
`incr_iter` flag: an `AS_TRANS` takes the head of `liter` and starts
advancing; afterwards `liter` advances on every ASN; a non-`AS_TRANS`
mismatch only logs.  When `has_4b` is false or `liter` is exhausted the ASN
is kept unchanged. -/
def restoreSegValues (has4b : Bool) : List Nat → Bool → List Nat → List Nat
  | _, _, [] => []
  | liter, incr, asn :: rest =>
    if has4b then
      match liter with
      | l0 :: lt =>
        if asn = 23456 then l0 :: restoreSegValues has4b lt true rest
        else if incr then asn :: restoreSegValues has4b lt true rest
        else asn :: restoreSegValues has4b liter false rest
      | [] => asn :: restoreSegValues has4b [] incr rest
    else asn :: restoreSegValues has4b liter incr rest

/-- `full_as_path` of `restoreAsPath` (lines 178-190): the ASNs of the
`AS_SEQUENCE` segments of `AS4_PATH`, in order. -/
def collectAs4 (segs4 : List BgpAsPathSegment) : List Nat :=
  segs4.foldl (fun acc s => if s.type = AS_SEQUENCE then acc ++ s.value else acc) []

/-- `BgpUpdateMessage::restoreAsPath` (bgp-update-message.cc lines 145-248).
Returns the source's boolean result together with the message state at
return.  Note: on the `AS4_PATH` path the attribute is dropped before the
`AS_PATH` segments are checked, so a failure there leaves `AS4_PATH` already
removed, exactly as in the source.  A `dynamic_cast` failure (an attribute
carrying the `AS_PATH`/`AS4_PATH` type code but of a different variant, which
the library never builds) is modelled as failure with the message
unchanged. -/
def BgpUpdateMessage.restoreAsPath (m : BgpUpdateMessage) :
    Bool × BgpUpdateMessage :=
  match m.getAttrib AS_PATH with
  | none => (true, m)
  | some (.asPath is4b segs) =>
    if is4b then (true, m)
    else
      match m.getAttrib AS4_PATH with
      | none =>
        if segs.any (fun s => s.is_4b) then (false, m)
        else (true, m.setAttrib AS_PATH
          (.asPath true (segs.map (fun s => ⟨true, s.type, s.value⟩))))
      | some (.as4path segs4) =>
        if segs4.any (fun s => !s.is_4b) then (false, m)
        else
          let full := collectAs4 segs4
          let m1 := (m.dropAttrib AS4_PATH).2
          let has4b := !full.isEmpty
          let tail4 := full.dropWhile (fun a => a ≤ 0xffff)
          if segs.any (fun s => s.is_4b) then (false, m1)
          else
            (true, m1.setAttrib AS_PATH
              (.asPath true (segs.map
                (fun s => ⟨true, s.type, restoreSegValues has4b tail4 false s.value⟩))))
      | some _ => (false, m)
  | some _ => (false, m)

/-- `BgpUpdateMessage::downgradeAsPath` (bgp-update-message.cc lines 250-279).
Builds the 2-byte copy (each ASN `>= 0xffff` becomes `AS_TRANS = 23456`),
installs `AS4_PATH` carrying the original segments via `updateAttribute`,
then rewrites the `AS_PATH` attribute in place. -/
def BgpUpdateMessage.downgradeAsPath (m : BgpUpdateMessage) :
    Bool × BgpUpdateMessage :=
  match m.getAttrib AS_PATH with
  | none => (true, m)
  | some (.asPath is4b segs) =>
    if !is4b then (true, m)
    else if segs.any (fun s => !s.is_4b) then (false, m)
    else
      let new_segs := segs.map
        (fun s => ⟨false, s.type, s.value.map (fun asn => if asn ≥ 0xffff then 23456 else asn)⟩)
      let m1 := (m.updateAttribute (.as4path segs)).2
      (true, m1.setAttrib AS_PATH (.asPath false new_segs))
  | some _ => (false, m)

/-! ## The IPv6 RIB (bgp-rib6.cc) -/

/-- An IPv6 prefix.  The `Prefix6` class itself is not in the snapshot; per
the spec (§3) it is a 16-byte address plus a length with exact
length-and-prefix equality, so the address bytes are abstracted to a `Nat`
and equality is structural. -/
structure Prefix6 where
  pfx : Nat
  length : Nat
deriving DecidableEq, Repr

/-- `BgpRib6Entry` (bgp-rib6.h/.cc).  16-byte nexthop addresses are
abstracted to `Nat` (the source only `memcpy`s and `memcmp`s them); a NULL
link-local argument is stored as 0 by the constructor (`memset`). -/
structure BgpRib6Entry where
  route : Prefix6
  src_router_id : Nat
  nexthop_global : Nat
  nexthop_linklocal : Nat
  attribs : List BgpPathAttrib
  weight : Int
  update_id : Nat
deriving DecidableEq, Repr

/-- RIB state: the entry vector and the `update_id` counter.  `update_id` is
a `uint64_t` incremented at most once per call starting from 0, so its
wrap-around is unreachable in any execution and it is modelled as `Nat`. -/
structure Rib6State where
  rib : List BgpRib6Entry
  update_id : Nat
deriving DecidableEq, Repr

/-- List walk of `BgpRib6::insertPriv` (bgp-rib6.cc lines 47-88): find the
first entry with the same `(route, src_router_id)`; replace it (erase +
push_back) iff the new entry wins the tie-break `gt`, else reject; if there
is none, push_back.  The tie-break `BgpRib6Entry::operator>` is not in the
snapshot, so it is passed in as a parameter; every claim below holds for all
choices of `gt`. -/
def insertPrivGo (gt : BgpRib6Entry → BgpRib6Entry → Bool) (ne : BgpRib6Entry) :
    List BgpRib6Entry → Bool × List BgpRib6Entry
  | [] => (true, [ne])
  | e :: rest =>
    if e.route = ne.route ∧ e.src_router_id = ne.src_router_id then
      if gt ne e then (true, rest ++ [ne]) else (false, e :: rest)
    else
      let r := insertPrivGo gt ne rest
      (r.1, e :: r.2)

/-- `BgpRib6::insertPriv` (bgp-rib6.cc lines 47-88).  The new entry takes the
current `update_id` of the RIB. -/
def BgpRib6.insertPriv (gt : BgpRib6Entry → BgpRib6Entry → Bool) (s : Rib6State)
    (src_router_id : Nat) (route : Prefix6) (nexthop_global nexthop_linklocal : Nat)
    (attribs : List BgpPathAttrib) (weight : Int) : Bool × Rib6State :=
  let ne : BgpRib6Entry :=
    { route := route, src_router_id := src_router_id,
      nexthop_global := nexthop_global, nexthop_linklocal := nexthop_linklocal,
      attribs := attribs, weight := weight, update_id := s.update_id }
  let r := insertPrivGo gt ne s.rib
  (r.1, { s with rib := r.2 })

/-- Single-route peer insert, `BgpRib6::insert` (bgp-rib6.cc lines 275-283):
`insertPriv` with the arguments in order, then `update_id++` iff inserted. -/
def BgpRib6.insert (gt : BgpRib6Entry → BgpRib6Entry → Bool) (s : Rib6State)
    (src_router_id : Nat) (route : Prefix6) (nexthop_global nexthop_linklocal : Nat)
    (attribs : List BgpPathAttrib) (weight : Int) : Bool × Rib6State :=
  let r := BgpRib6.insertPriv gt s src_router_id route nexthop_global nexthop_linklocal attribs weight
  (r.1, if r.1 then { r.2 with update_id := r.2.update_id + 1 } else r.2)

/-- Multi-route peer insert, `BgpRib6::insert` (bgp-rib6.cc lines 299-308).
The source calls
`insertPriv(src_router_id, r, nexthop_linklocal, nexthop_global, attrib, weight)`
(line 304) — the two nexthop arguments are passed in swapped order — and
increments `update_id` exactly once at the end. -/
def BgpRib6.insertBatch (gt : BgpRib6Entry → BgpRib6Entry → Bool) (s : Rib6State)
    (src_router_id : Nat) (routes : List Prefix6) (nexthop_global nexthop_linklocal : Nat)
    (attribs : List BgpPathAttrib) (weight : Int) : Nat × Rib6State :=
  let r := routes.foldl
    (fun (acc : Nat × Rib6State) route =>
      let step := BgpRib6.insertPriv gt acc.2 src_router_id route
        nexthop_linklocal nexthop_global attribs weight
      (if step.1 then acc.1 + 1 else acc.1, step.2))
    (0, s)
  (r.1, { r.2 with update_id := r.2.update_id + 1 })

/-- `Origin = IGP` plus an empty 4-byte `AS_PATH`: the attributes the local
inserts synthesize (bgp-rib6.cc lines 113-119 and 196-202). -/
def localAttribs : List BgpPathAttrib := [.origin 0, .asPath true []]

/-- Single-route local insert, `BgpRib6::insert` (bgp-rib6.cc lines 111-146):
fail if a local entry for the route exists; group with the last local entry
whose nexthops match (reusing its `update_id`); increment `update_id` only
when no group was found. -/
def BgpRib6.insertLocal (s : Rib6State) (route : Prefix6)
    (nexthop_global nexthop_linklocal : Nat) (weight : Int) :
    Option BgpRib6Entry × Rib6State :=
  if s.rib.any (fun e => decide (e.src_router_id = 0 ∧ e.route = route)) then (none, s)
  else
    let use_update_id := s.rib.foldl
      (fun acc e =>
        if e.src_router_id = 0 ∧ e.nexthop_global = nexthop_global ∧
            e.nexthop_linklocal = nexthop_linklocal then e.update_id else acc)
      s.update_id
    let ne : BgpRib6Entry :=
      { route := route, src_router_id := 0, nexthop_global := nexthop_global,
        nexthop_linklocal := nexthop_linklocal, attribs := localAttribs,
        weight := weight, update_id := use_update_id }
    (some ne,
      { rib := s.rib ++ [ne],
        update_id := if use_update_id = s.update_id then s.update_id + 1 else s.update_id })

/-- Multi-route local insert, `BgpRib6::insert` (bgp-rib6.cc lines 192-226):
skip routes that already have a local entry (checking the rib as it grows),
give every new entry the entry-time `update_id` member (not incremented
during the loop), and increment `update_id` exactly once at the end. -/
def BgpRib6.insertLocalBatch (s : Rib6State) (routes : List Prefix6)
    (nexthop_global nexthop_linklocal : Nat) (weight : Int) :
    List BgpRib6Entry × Rib6State :=
  let r := routes.foldl
    (fun (acc : List BgpRib6Entry × List BgpRib6Entry) route =>
      if acc.2.any (fun e => decide (e.src_router_id = 0 ∧ e.route = route)) then acc
      else
        let ne : BgpRib6Entry :=
          { route := route, src_router_id := 0, nexthop_global := nexthop_global,
            nexthop_linklocal := nexthop_linklocal, attribs := localAttribs,
            weight := weight, update_id := s.update_id }
        (acc.1 ++ [ne], acc.2 ++ [ne]))
    ([], s.rib)
  (r.1, { rib := r.2, update_id := s.update_id + 1 })

/-- List walk of `BgpRib6::withdraw` (bgp-rib6.cc lines 318-336): erase the
first entry matching `(route, src_router_id)` and report success; leave the
list unchanged and report failure when there is none. -/
def withdrawGo (src_router_id : Nat) (route : Prefix6) :
    List BgpRib6Entry → Bool × List BgpRib6Entry
  | [] => (false, [])
  | e :: rest =>
    if e.route = route ∧ e.src_router_id = src_router_id then (true, rest)
    else
      let r := withdrawGo src_router_id route rest
      (r.1, e :: r.2)

/-- `BgpRib6::withdraw` (bgp-rib6.cc lines 318-336). -/
def BgpRib6.withdraw (s : Rib6State) (src_router_id : Nat) (route : Prefix6) :
    Bool × Rib6State :=
  let r := withdrawGo src_router_id route s.rib
  (r.1, { s with rib := r.2 })

/-- Multi-route withdraw, `BgpRib6::withdraw` (bgp-rib6.cc lines 347-353):
one single-route withdraw per route, counting successes. -/
def BgpRib6.withdrawBatch (s : Rib6State) (src_router_id : Nat)
    (routes : List Prefix6) : Nat × Rib6State :=
  routes.foldl
    (fun (acc : Nat × Rib6State) route =>
      let r := BgpRib6.withdraw acc.2 src_router_id route
      (if r.1 then acc.1 + 1 else acc.1, r.2))
    (0, s)

/-- `BgpRib6::discard` (bgp-rib6.cc lines 361-380): drop every entry from the
given source, returning their routes. -/
def BgpRib6.discard (s : Rib6State) (src_router_id : Nat) :
    List Prefix6 × Rib6State :=
  ((s.rib.filter (fun e => decide (e.src_router_id = src_router_id))).map (fun e => e.route),
    { s with rib := s.rib.filter (fun e => !decide (e.src_router_id = src_router_id)) })

/-- The mutating RIB operations (spec §4.3), for stating RIB-wide
invariants.  `lookup` and `get` are read-only and do not appear. -/
inductive Rib6Op where
  | insertPeer (src : Nat) (route : Prefix6) (g l : Nat)
      (attribs : List BgpPathAttrib) (w : Int)
  | insertPeerBatch (src : Nat) (routes : List Prefix6) (g l : Nat)
      (attribs : List BgpPathAttrib) (w : Int)
  | insertLocal (route : Prefix6) (g l : Nat) (w : Int)
  | insertLocalBatch (routes : List Prefix6) (g l : Nat) (w : Int)
  | withdrawOne (src : Nat) (route : Prefix6)
  | withdrawMany (src : Nat) (routes : List Prefix6)
  | discardFrom (src : Nat)
deriving Repr

/-- Apply a RIB operation to a RIB state. -/
def applyRib6Op (gt : BgpRib6Entry → BgpRib6Entry → Bool) :
    Rib6Op → Rib6State → Rib6State
  | .insertPeer src route g l attribs w, s => (BgpRib6.insert gt s src route g l attribs w).2
  | .insertPeerBatch src routes g l attribs w, s =>
      (BgpRib6.insertBatch gt s src routes g l attribs w).2
  | .insertLocal route g l w, s => (BgpRib6.insertLocal s route g l w).2
  | .insertLocalBatch routes g l w, s => (BgpRib6.insertLocalBatch s routes g l w).2
  | .withdrawOne src route, s => (BgpRib6.withdraw s src route).2
  | .withdrawMany src routes, s => (BgpRib6.withdrawBatch s src routes).2
  | .discardFrom src, s => (BgpRib6.discard s src).2

/-- The externally-initiated batch inserts: the `insert` overloads taking a
vector of routes (bgp-rib6.cc lines 192-226 and 299-308). -/
def Rib6Op.isBatchInsert : Rib6Op → Bool
  | .insertPeerBatch .. => true
  | .insertLocalBatch .. => true
  | _ => false

/-! ## Claim-side definitions

Formalizations of what the spec sentences state, written independently of the
code model, to be compared with it. -/

/-- Claim C3's replacement rule over one run of ASNs: a single cursor into the
collected 4-byte list, consumed (head taken and advanced) exactly at each
`AS_TRANS = 23456` occurrence; other ASNs are untouched.  Returns the new run
and the remaining cursor, so the cursor can be threaded across segments. -/
def claimThreadVals : List Nat → List Nat → List Nat × List Nat
  | tail, [] => ([], tail)
  | tail, v :: vs =>
    if v = 23456 then
      match tail with
      | t :: ts =>
        let r := claimThreadVals ts vs
        (t :: r.1, r.2)
      | [] =>
        let r := claimThreadVals [] vs
        (v :: r.1, r.2)
    else
      let r := claimThreadVals tail vs
      (v :: r.1, r.2)

/-- Claim C3's replacement across all segments, left-to-right, one cursor. -/
def claimThreadSegs : List Nat → List BgpAsPathSegment → List BgpAsPathSegment
  | _, [] => []
  | tail, s :: rest =>
    let r := claimThreadVals tail s.value
    ⟨true, s.type, r.1⟩ :: claimThreadSegs r.2 rest

/-- The message claim C3 says `restoreAsPath` produces on a message with a
2-byte `AS_PATH` and a companion `AS4_PATH`: each `AS_TRANS` replaced by the
next 4-byte ASN in order from the list collected from the `AS4_PATH`
`AS_SEQUENCE` segments, `AS4_PATH` removed, `is_4b` set. -/
def claimRestoreResult (m : BgpUpdateMessage) : Option BgpUpdateMessage :=
  match m.getAttrib AS_PATH, m.getAttrib AS4_PATH with
  | some (.asPath false segs), some (.as4path segs4) =>
    some ((m.dropAttrib AS4_PATH).2.setAttrib AS_PATH
      (.asPath true (claimThreadSegs (collectAs4 segs4) segs)))
  | _, _ => none

/-- The message claim C4 says `downgradeAsPath` produces on a message with a
4-byte `AS_PATH`: a 2-byte `AS_PATH` in which exactly the ASNs `≥ 2^16` are
replaced by `AS_TRANS` (every ASN `< 2^16` kept), plus an `AS4_PATH`
carrying the original segments. -/
def claimDowngradeResult (m : BgpUpdateMessage) : Option BgpUpdateMessage :=
  match m.getAttrib AS_PATH with
  | some (.asPath true segs) =>
    some (((m.updateAttribute (.as4path segs)).2).setAttrib AS_PATH
      (.asPath false (segs.map
        (fun s => ⟨false, s.type, s.value.map (fun v => if v ≥ 2 ^ 16 then 23456 else v)⟩))))
  | _ => none

/-- Amended (C3) per-segment replacement: the cursor tail paired positionally
with the segment's values from its first `AS_TRANS` on; an `AS_TRANS` takes
the paired cursor element, other values are kept, values beyond the cursor's
end are kept. -/
def replaceFromCursor : List Nat → List Nat → List Nat
  | _, [] => []
  | [], v :: vs => v :: vs
  | t :: ts, v :: vs => (if v = 23456 then t else v) :: replaceFromCursor ts vs

/-- Amended (C3) replacement for one segment: values before the segment's
first `AS_TRANS` are kept; from there on `replaceFromCursor` applies.  The
cursor restarts at `tail` for every segment. -/
def amendedRestoreSeg (tail vals : List Nat) : List Nat :=
  let k := vals.findIdx (fun v => v == 23456)
  vals.take k ++ replaceFromCursor tail (vals.drop k)

/-! ## Concrete inputs for the counterexamples and witnesses -/

/-- Two-segment 2-byte `AS_PATH` of one `AS_TRANS` each, with an `AS4_PATH`
carrying `AS_SEQUENCE [70000, 80000]`. -/
def cexC3 : BgpUpdateMessage :=
  { use_4b_asn := false, withdrawn_routes := [],
    path_attribute :=
      [.asPath false [⟨false, AS_SEQUENCE, [23456]⟩, ⟨false, AS_SEQUENCE, [23456]⟩],
       .as4path [⟨true, AS_SEQUENCE, [70000, 80000]⟩]],
    nlri := [] }

/-- Four-byte `AS_PATH` of the single ASN 65535 = 2^16 - 1. -/
def cexC4 : BgpUpdateMessage :=
  { use_4b_asn := true, withdrawn_routes := [],
    path_attribute := [.asPath true [⟨true, AS_SEQUENCE, [65535]⟩]],
    nlri := [] }

/-- Two-byte `AS_PATH` of the single ASN 65000, no `AS4_PATH`. -/
def cexC5 : BgpUpdateMessage :=
  { use_4b_asn := false, withdrawn_routes := [],
    path_attribute := [.asPath false [⟨false, AS_SEQUENCE, [65000]⟩]],
    nlri := [] }

/-- Two-byte `AS_PATH` `[23456, 65000]` — `AS_TRANS` itself present — and no
`AS4_PATH`. -/
def msgC5trans : BgpUpdateMessage :=
  { use_4b_asn := false, withdrawn_routes := [],
    path_attribute := [.asPath false [⟨false, AS_SEQUENCE, [23456, 65000]⟩]],
    nlri := [] }

/-! # Theorems -/

/-- C2: `validateAttribs` was claimed to return false with
`(E_UPDATE, E_ATTR_LIST)` on a duplicated type code; on the attribute list
`[ORIGIN, AS_PATH, NEXT_HOP, ORIGIN]`, which carries ORIGIN twice, it in fact
returns true with no error recorded, because
`typecode_bitsmap &= ~(1UL << type_code)` clears the bit instead of setting
it and the duplicate check never fires. -/
theorem validateAttribs_accepts_duplicate_type :
    ¬ (([.origin 0, .asPath true [], .nexthop 5, .origin 2] : List BgpPathAttrib).map
        BgpPathAttrib.type_code).Nodup ∧
    BgpUpdateMessage.validateAttribs [.origin 0, .asPath true [], .nexthop 5, .origin 2]
      = (true, (0, 0)) := by decide

/-- C6: on the byte run `40 01 01 03` — well-known flags, type ORIGIN,
declared length 1, value 3 > 2 — `BgpPathAttribOrigin::parse` was claimed to
fail recording `(E_UPDATE, E_ORIGIN)`.  It does fail, but with no error
recorded (`(0, 0)`): the guard `parseHeader(...) != 3` takes the early
return (parseHeader returns 2) before the value is ever examined. -/
theorem originParse_failing_input_no_error_recorded :
    BgpPathAttribOrigin.parse [0x40, 0x01, 0x01, 0x03] 4 = .error (0, 0) ∧
    (0, 0) ≠ (E_UPDATE, E_ORIGIN_ERR) := by decide

/-- C7: the single-route peer insert of `BgpRib6` stores
`nexthop_global`/`nexthop_linklocal` as given, but the multi-route peer
insert passes them to `insertPriv` in swapped order (bgp-rib6.cc line 304),
so the entry it creates has the two fields exchanged. -/
theorem rib6_batch_insert_swaps_nexthops :
    ((BgpRib6.insert (fun _ _ => false) ⟨[], 0⟩ 1 ⟨7, 64⟩ 11 22 [] 0).2.rib.map
        (fun e => (e.nexthop_global, e.nexthop_linklocal)) = [(11, 22)]) ∧
    ((BgpRib6.insertBatch (fun _ _ => false) ⟨[], 0⟩ 1 [⟨7, 64⟩] 11 22 [] 0).2.rib.map
        (fun e => (e.nexthop_global, e.nexthop_linklocal)) = [(22, 11)]) := by decide

/-- C3 counterexample: on an `AS_PATH` of two segments `[AS_TRANS]`,
`[AS_TRANS]` with `AS4_PATH = AS_SEQUENCE [70000, 80000]`, the claimed
left-to-right replacement across all segments yields `[70000]`, `[80000]`,
but `restoreAsPath` yields `[70000]`, `[70000]`: the cursor into the
collected 4-byte list restarts for every segment. -/
theorem restoreAsPath_claim_counterexample :
    (cexC3.restoreAsPath).1 = true ∧
    (cexC3.restoreAsPath).2.path_attribute
      = [.asPath true [⟨true, AS_SEQUENCE, [70000]⟩, ⟨true, AS_SEQUENCE, [70000]⟩]] ∧
    claimRestoreResult cexC3
      = some { cexC3 with path_attribute :=
          [.asPath true [⟨true, AS_SEQUENCE, [70000]⟩, ⟨true, AS_SEQUENCE, [80000]⟩]] } ∧
    some (cexC3.restoreAsPath).2 ≠ claimRestoreResult cexC3 := by decide

/-- C4 counterexample: the claim keeps every ASN `< 2^16` unchanged, but
`downgradeAsPath` uses `asn >= 0xffff`, so the ASN 65535 = 2^16 - 1 is also
replaced by `AS_TRANS = 23456`. -/
theorem downgradeAsPath_claim_counterexample :
    (cexC4.downgradeAsPath).1 = true ∧
    (cexC4.downgradeAsPath).2.path_attribute
      = [.asPath false [⟨false, AS_SEQUENCE, [23456]⟩],
         .as4path [⟨true, AS_SEQUENCE, [65535]⟩]] ∧
    claimDowngradeResult cexC4
      = some { cexC4 with path_attribute :=
          [.asPath false [⟨false, AS_SEQUENCE, [65535]⟩],
           .as4path [⟨true, AS_SEQUENCE, [65535]⟩]] } ∧
    some (cexC4.downgradeAsPath).2 ≠ claimDowngradeResult cexC4 := by decide

/-- C5 counterexample: `downgradeAsPath (restoreAsPath x)` is not the
identity even on a plain 2-byte message on which both transforms succeed:
the downgrade installs an `AS4_PATH` attribute that `x` never carried. -/
theorem restore_downgrade_roundtrip_counterexample :
    (cexC5.restoreAsPath).1 = true ∧
    ((cexC5.restoreAsPath).2.downgradeAsPath).1 = true ∧
    ((cexC5.restoreAsPath).2.downgradeAsPath).2.path_attribute
      = [.asPath false [⟨false, AS_SEQUENCE, [65000]⟩],
         .as4path [⟨true, AS_SEQUENCE, [65000]⟩]] ∧
    ((cexC5.restoreAsPath).2.downgradeAsPath).2 ≠ cexC5 := by decide

/-! ### C1: the UPDATE parser cannot succeed

`parseHeader` returns 2 on success while every in-snapshot typed parser
requires 3, so ORIGIN (and AS_PATH) attributes can never be parsed; since
`validateAttribs` demands an ORIGIN attribute, no byte run parses. -/

theorem originParse_ne_ok (buf : List Nat) (sz : Nat) (r : BgpPathAttrib × Nat) :
    BgpPathAttribOrigin.parse buf sz ≠ .ok r := by
  unfold BgpPathAttribOrigin.parse
  cases h : BgpPathAttrib.parseHeader buf sz with
  | error e => intro hc; exact Except.noConfusion hc
  | ok hd => intro hc; exact Except.noConfusion hc

theorem asPathParse_ne_ok (is4b : Bool) (buf : List Nat) (sz : Nat)
    (r : BgpPathAttrib × Nat) : BgpPathAttribAsPath.parse is4b buf sz ≠ .ok r := by
  unfold BgpPathAttribAsPath.parse
  cases h : BgpPathAttrib.parseHeader buf sz with
  | error e => intro hc; exact Except.noConfusion hc
  | ok hd => intro hc; exact Except.noConfusion hc

theorem unknowParse_ne_ok (buf : List Nat) (sz : Nat) (r : BgpPathAttrib × Nat) :
    BgpPathAttribUnknow.parse buf sz ≠ .ok r := by
  unfold BgpPathAttribUnknow.parse
  cases h : BgpPathAttrib.parseHeader buf sz with
  | error e => intro hc; exact Except.noConfusion hc
  | ok hd => intro hc; exact Except.noConfusion hc

theorem specNexthopParse_ok_tc (buf : List Nat) (sz : Nat) (a : BgpPathAttrib)
    (c : Nat) (h : specNexthopParse buf sz = .ok (a, c)) : a.type_code = NEXT_HOP := by
  unfold specNexthopParse at h
  cases hh : specParseHeader buf sz with
  | error e => rw [hh] at h; cases h
  | ok p =>
    rw [hh] at h
    obtain ⟨hd, hsz⟩ := p
    split at h
    · cases h
    · split at h
      · cases h
      · split at h
        · cases h
        · injection h with h'
          injection h' with h1 h2
          rw [← h1]; rfl

theorem specMedParse_ok_tc (buf : List Nat) (sz : Nat) (a : BgpPathAttrib)
    (c : Nat) (h : specMedParse buf sz = .ok (a, c)) : a.type_code = MULTI_EXIT_DISC := by
  unfold specMedParse at h
  cases hh : specParseHeader buf sz with
  | error e => rw [hh] at h; cases h
  | ok p =>
    rw [hh] at h
    obtain ⟨hd, hsz⟩ := p
    split at h
    · cases h
    · split at h
      · cases h
      · split at h
        · cases h
        · injection h with h'
          injection h' with h1 h2
          rw [← h1]; rfl

theorem specLocalPrefParse_ok_tc (buf : List Nat) (sz : Nat) (a : BgpPathAttrib)
    (c : Nat) (h : specLocalPrefParse buf sz = .ok (a, c)) : a.type_code = LOCAL_PREF := by
  unfold specLocalPrefParse at h
  cases hh : specParseHeader buf sz with
  | error e => rw [hh] at h; cases h
  | ok p =>
    rw [hh] at h
    obtain ⟨hd, hsz⟩ := p
    split at h
    · cases h
    · split at h
      · cases h
      · split at h
        · cases h
        · injection h with h'
          injection h' with h1 h2
          rw [← h1]; rfl

theorem specAtomicAggregateParse_ok_tc (buf : List Nat) (sz : Nat) (a : BgpPathAttrib)
    (c : Nat) (h : specAtomicAggregateParse buf sz = .ok (a, c)) :
    a.type_code = ATOMIC_AGGREGATE := by
  unfold specAtomicAggregateParse at h
  cases hh : specParseHeader buf sz with
  | error e => rw [hh] at h; cases h
  | ok p =>
    rw [hh] at h
    obtain ⟨hd, hsz⟩ := p
    split at h
    · cases h
    · split at h
      · cases h
      · split at h
        · cases h
        · injection h with h'
          injection h' with h1 h2
          rw [← h1]; rfl

theorem specAggregatorParse_ok_tc (is4b : Bool) (buf : List Nat) (sz : Nat)
    (a : BgpPathAttrib) (c : Nat) (h : specAggregatorParse is4b buf sz = .ok (a, c)) :
    a.type_code = AGGREATOR := by
  unfold specAggregatorParse at h
  cases hh : specParseHeader buf sz with
  | error e => rw [hh] at h; cases h
  | ok p =>
    rw [hh] at h
    obtain ⟨hd, hsz⟩ := p
    split at h
    · cases h
    · split at h
      · cases h
      · split at h
        · split at h
          · cases h
          · injection h with h'
            injection h' with h1 h2
            rw [← h1]; rfl
        · split at h
          · cases h
          · injection h with h'
            injection h' with h1 h2
            rw [← h1]; rfl

theorem specCommunityParse_ok_tc (buf : List Nat) (sz : Nat) (a : BgpPathAttrib)
    (c : Nat) (h : specCommunityParse buf sz = .ok (a, c)) : a.type_code = COMMUNITY := by
  unfold specCommunityParse at h
  cases hh : specParseHeader buf sz with
  | error e => rw [hh] at h; cases h
  | ok p =>
    rw [hh] at h
    obtain ⟨hd, hsz⟩ := p
    split at h
    · cases h
    · split at h
      · cases h
      · split at h
        · cases h
        · injection h with h'
          injection h' with h1 h2
          rw [← h1]; rfl

theorem specAs4PathParse_ok_tc (buf : List Nat) (sz : Nat) (a : BgpPathAttrib)
    (c : Nat) (h : specAs4PathParse buf sz = .ok (a, c)) : a.type_code = AS4_PATH := by
  unfold specAs4PathParse at h
  cases hh : specParseHeader buf sz with
  | error e => rw [hh] at h; cases h
  | ok p =>
    rw [hh] at h
    obtain ⟨hd, hsz⟩ := p
    split at h
    · cases h
    · split at h
      · cases h
      · split at h
        · cases h
        · injection h with h'
          injection h' with h1 h2
          rw [← h1]; rfl

theorem specAs4AggregatorParse_ok_tc (buf : List Nat) (sz : Nat) (a : BgpPathAttrib)
    (c : Nat) (h : specAs4AggregatorParse buf sz = .ok (a, c)) :
    a.type_code = AS4_AGGREGATOR := by
  unfold specAs4AggregatorParse at h
  cases hh : specParseHeader buf sz with
  | error e => rw [hh] at h; cases h
  | ok p =>
    rw [hh] at h
    obtain ⟨hd, hsz⟩ := p
    split at h
    · cases h
    · split at h
      · cases h
      · split at h
        · cases h
        · injection h with h'
          injection h' with h1 h2
          rw [← h1]; rfl

/-- Whatever the dispatched type byte, a successfully parsed attribute never
carries the ORIGIN type code: the ORIGIN case itself always fails. -/
theorem dispatchAttribParse_ok_not_origin (use4b : Bool) (t : Nat) (buf : List Nat)
    (sz : Nat) (a : BgpPathAttrib) (c : Nat)
    (h : dispatchAttribParse use4b t buf sz = .ok (a, c)) : a.type_code ≠ ORIGIN := by
  unfold dispatchAttribParse at h
  split at h
  · exact absurd h (originParse_ne_ok buf sz (a, c))
  split at h
  · exact absurd h (asPathParse_ne_ok use4b buf sz (a, c))
  split at h
  · rw [specNexthopParse_ok_tc buf sz a c h]; decide
  split at h
  · rw [specMedParse_ok_tc buf sz a c h]; decide
  split at h
  · rw [specLocalPrefParse_ok_tc buf sz a c h]; decide
  split at h
  · rw [specAtomicAggregateParse_ok_tc buf sz a c h]; decide
  split at h
  · rw [specAggregatorParse_ok_tc use4b buf sz a c h]; decide
  split at h
  · rw [specCommunityParse_ok_tc buf sz a c h]; decide
  split at h
  · rw [specAs4PathParse_ok_tc buf sz a c h]; decide
  split at h
  · rw [specAs4AggregatorParse_ok_tc buf sz a c h]; decide
  · exact absurd h (unknowParse_ne_ok buf sz (a, c))

/-- Every attribute the parse loop accumulates beyond its starting
accumulator is ORIGIN-free. -/
theorem parseAttribsGo_no_origin (use4b : Bool) (buf : List Nat) :
    ∀ (fuel parsed total : Nat) (acc l : List BgpPathAttrib),
      (∀ a ∈ acc, a.type_code ≠ ORIGIN) →
      parseAttribsGo use4b buf fuel parsed total acc = .ok l →
      ∀ a ∈ l, a.type_code ≠ ORIGIN := by
  intro fuel
  induction fuel with
  | zero =>
    intro parsed total acc l hacc h
    cases h
  | succ fuel ih =>
    intro parsed total acc l hacc h
    simp only [parseAttribsGo] at h
    split at h
    · split at h
      · cases h
      · split at h
        · cases h
        · split at h
          · cases h
          · rename_i a' consumed hd
            refine ih _ _ _ _ ?_ h
            intro x hx
            rcases List.mem_append.mp hx with hx | hx
            · exact hacc x hx
            · rcases List.mem_singleton.mp hx with rfl
              exact dispatchAttribParse_ok_not_origin _ _ _ _ _ _ hd
    · cases h
      exact hacc

/-- `validateAttribs` cannot succeed on an ORIGIN-free attribute list. -/
theorem validateAttribsGo_no_origin (l : List BgpPathAttrib) :
    ∀ (bm : Nat) (hn hp : Bool),
      (∀ a ∈ l, a.type_code ≠ ORIGIN) →
      (validateAttribsGo l bm false hn hp).1 = false := by
  induction l with
  | nil =>
    intro bm hn hp _
    simp [validateAttribsGo]
  | cons a rest ih =>
    intro bm hn hp hl
    have ha : ¬ a.type_code = ORIGIN := hl a (List.mem_cons_self a rest)
    simp only [validateAttribsGo]
    rw [if_neg ha]
    split
    · rfl
    · exact ih _ _ _ (fun x hx => hl x (List.mem_cons_of_mem a hx))

/-- C1: `BgpUpdateMessage::parse` never succeeds, on any byte run whatever —
in particular `parse(write(m))` cannot equal `m` for any well-formed `m`.
Every in-snapshot typed attribute parser opens with
`if (parseHeader(...) != 3) return -1;` against `parseHeader`'s success
return of 2, so no ORIGIN (or AS_PATH) attribute is ever produced, and
`validateAttribs` then rejects the attribute list (or an earlier stage has
already failed). -/
theorem update_parse_never_ok (use4b : Bool) (buf : List Nat)
    (m : BgpUpdateMessage) : BgpUpdateMessage.parse use4b buf ≠ .ok m := by
  intro h
  simp only [BgpUpdateMessage.parse] at h
  split at h
  · cases h
  · split at h
    · cases h
    · split at h
      · cases h
      · split at h
        · cases h
        · split at h
          · cases h
          · rename_i attrs hattrs
            split at h
            · cases h
            · rename_i e hval
              have hno := parseAttribsGo_no_origin use4b _ _ _ _ [] attrs
                (by intro a ha; cases ha) hattrs
              have hfalse := validateAttribsGo_no_origin attrs 0 false false hno
              rw [show validateAttribsGo attrs 0 false false false
                    = BgpUpdateMessage.validateAttribs attrs from rfl, hval] at hfalse
              cases hfalse

/-- Witness for `update_parse_never_ok`: the all-zero 4-byte buffer does not
parse to the empty UPDATE message. -/
theorem update_parse_never_ok_witness :
    BgpUpdateMessage.parse true [0, 0, 0, 0] ≠ .ok ⟨true, [], [], []⟩ :=
  update_parse_never_ok true [0, 0, 0, 0] ⟨true, [], [], []⟩

/-! ### Helper lemmas on the attribute-list operations -/

theorem find?_tc_cons_pos {a : BgpPathAttrib} (rest : List BgpPathAttrib) {t : Nat}
    (h : a.type_code = t) :
    List.find? (fun x => x.type_code == t) (a :: rest) = some a :=
  List.find?_cons_of_pos rest (by simp [h])

theorem find?_tc_cons_neg {a : BgpPathAttrib} (rest : List BgpPathAttrib) {t : Nat}
    (h : a.type_code ≠ t) :
    List.find? (fun x => x.type_code == t) (a :: rest)
      = List.find? (fun x => x.type_code == t) rest :=
  List.find?_cons_of_neg rest (by simp [h])

theorem find?_dropFirstAttrib_ne (l : List BgpPathAttrib) {t u : Nat} (hne : t ≠ u) :
    (dropFirstAttrib l u).find? (fun a => a.type_code == t)
      = l.find? (fun a => a.type_code == t) := by
  induction l with
  | nil => rfl
  | cons a rest ih =>
    simp only [dropFirstAttrib]
    split
    · rename_i hau
      rw [find?_tc_cons_neg rest (by rw [hau]; exact Ne.symm hne)]
    · rename_i hau
      by_cases hat : a.type_code = t
      · rw [find?_tc_cons_pos (dropFirstAttrib rest u) hat, find?_tc_cons_pos rest hat]
      · rw [find?_tc_cons_neg (dropFirstAttrib rest u) hat, find?_tc_cons_neg rest hat]
        exact ih

theorem dropFirstAttrib_of_none (l : List BgpPathAttrib) (t : Nat)
    (h : ∀ a ∈ l, a.type_code ≠ t) : dropFirstAttrib l t = l := by
  induction l with
  | nil => rfl
  | cons a rest ih =>
    simp only [dropFirstAttrib]
    rw [if_neg (h a (List.mem_cons_self a rest)),
      ih (fun x hx => h x (List.mem_cons_of_mem a hx))]

theorem mem_dropFirstAttrib {l : List BgpPathAttrib} {t : Nat} {x : BgpPathAttrib}
    (hx : x ∈ dropFirstAttrib l t) : x ∈ l := by
  induction l with
  | nil => cases hx
  | cons a rest ih =>
    simp only [dropFirstAttrib] at hx
    split at hx
    · exact List.mem_cons_of_mem a hx
    · rcases List.mem_cons.mp hx with rfl | hx
      · exact List.mem_cons_self _ _
      · exact List.mem_cons_of_mem a (ih hx)

theorem dropFirstAttrib_no_tc (l : List BgpPathAttrib) (t : Nat)
    (hc : l.countP (fun a => a.type_code == t) ≤ 1) :
    ∀ x ∈ dropFirstAttrib l t, x.type_code ≠ t := by
  induction l with
  | nil => intro x hx; cases hx
  | cons a rest ih =>
    intro x hx
    simp only [dropFirstAttrib] at hx
    split at hx
    · rename_i hat
      rw [List.countP_cons, hat] at hc
      rw [if_pos (by simp)] at hc
      intro hxt
      have hz0 : List.countP (fun a => a.type_code == t) rest = 0 := by omega
      have hz := List.countP_eq_zero.mp hz0 x hx
      rw [hxt] at hz
      simp at hz
    · rename_i hat
      rcases List.mem_cons.mp hx with rfl | hx'
      · exact hat
      · refine ih ?_ x hx'
        rw [List.countP_cons] at hc
        exact le_trans (Nat.le_add_right _ _) hc

theorem setFirstAttrib_of_find? (l : List BgpPathAttrib) (t : Nat) (b : BgpPathAttrib)
    (h : l.find? (fun a => a.type_code == t) = some b) : setFirstAttrib l t b = l := by
  induction l with
  | nil => cases h
  | cons a rest ih =>
    simp only [setFirstAttrib]
    by_cases hat : a.type_code = t
    · rw [if_pos hat]
      rw [find?_tc_cons_pos rest hat] at h
      injection h with h
      rw [h]
    · rw [if_neg hat]
      rw [find?_tc_cons_neg rest hat] at h
      rw [ih h]

theorem find?_setFirstAttrib_self (l : List BgpPathAttrib) (t : Nat)
    (b : BgpPathAttrib) (hb : b.type_code = t)
    (h : (l.find? (fun a => a.type_code == t)).isSome) :
    (setFirstAttrib l t b).find? (fun a => a.type_code == t) = some b := by
  induction l with
  | nil => simp [List.find?] at h
  | cons a rest ih =>
    simp only [setFirstAttrib]
    by_cases hat : a.type_code = t
    · rw [if_pos hat]
      exact find?_tc_cons_pos _ hb
    · rw [if_neg hat]
      rw [find?_tc_cons_neg _ hat]
      apply ih
      rwa [find?_tc_cons_neg rest hat] at h

theorem find?_setFirstAttrib_ne (l : List BgpPathAttrib) {t u : Nat}
    (b : BgpPathAttrib) (hne : u ≠ t) (hb : b.type_code ≠ u) :
    (setFirstAttrib l t b).find? (fun a => a.type_code == u)
      = l.find? (fun a => a.type_code == u) := by
  induction l with
  | nil => rfl
  | cons a rest ih =>
    simp only [setFirstAttrib]
    by_cases hat : a.type_code = t
    · rw [if_pos hat, find?_tc_cons_neg rest hb,
        find?_tc_cons_neg rest (by rw [hat]; exact Ne.symm hne)]
    · rw [if_neg hat]
      by_cases hpa : a.type_code = u
      · rw [find?_tc_cons_pos _ hpa, find?_tc_cons_pos rest hpa]
      · rw [find?_tc_cons_neg _ hpa, find?_tc_cons_neg rest hpa]
        exact ih

theorem setFirstAttrib_append (l l2 : List BgpPathAttrib) (t : Nat) (b : BgpPathAttrib)
    (h : (l.find? (fun a => a.type_code == t)).isSome) :
    setFirstAttrib (l ++ l2) t b = setFirstAttrib l t b ++ l2 := by
  induction l with
  | nil => simp [List.find?] at h
  | cons a rest ih =>
    simp only [List.cons_append, setFirstAttrib]
    by_cases hat : a.type_code = t
    · rw [if_pos hat, if_pos hat]
      rfl
    · rw [if_neg hat, if_neg hat, List.cons_append]
      rw [find?_tc_cons_neg rest hat] at h
      exact congrArg (List.cons a) (ih h)

theorem setFirstAttrib_setFirstAttrib (l : List BgpPathAttrib) (t : Nat)
    (b c : BgpPathAttrib) (hb : b.type_code = t) :
    setFirstAttrib (setFirstAttrib l t b) t c = setFirstAttrib l t c := by
  induction l with
  | nil => rfl
  | cons a rest ih =>
    simp only [setFirstAttrib]
    by_cases hat : a.type_code = t
    · rw [if_pos hat, if_pos hat]
      simp only [setFirstAttrib]
      rw [if_pos hb]
    · rw [if_neg hat, if_neg hat]
      simp only [setFirstAttrib]
      rw [if_neg hat, ih]

theorem mem_setFirstAttrib {l : List BgpPathAttrib} {t : Nat} {b x : BgpPathAttrib}
    (hx : x ∈ setFirstAttrib l t b) : x ∈ l ∨ x = b := by
  induction l with
  | nil => cases hx
  | cons a rest ih =>
    simp only [setFirstAttrib] at hx
    split at hx
    · rcases List.mem_cons.mp hx with rfl | hx
      · exact Or.inr rfl
      · exact Or.inl (List.mem_cons_of_mem a hx)
    · rcases List.mem_cons.mp hx with rfl | hx
      · exact Or.inl (List.mem_cons_self _ _)
      · rcases ih hx with h | h
        · exact Or.inl (List.mem_cons_of_mem a h)
        · exact Or.inr h

theorem find?_append_of_some {l1 : List BgpPathAttrib} (l2 : List BgpPathAttrib)
    {p : BgpPathAttrib → Bool} {x : BgpPathAttrib} (h : l1.find? p = some x) :
    (l1 ++ l2).find? p = some x := by
  rw [List.find?_append, h]
  rfl

theorem find?_append_of_none {l1 : List BgpPathAttrib} (l2 : List BgpPathAttrib)
    {p : BgpPathAttrib → Bool} (h : ∀ a ∈ l1, ¬ p a = true) :
    (l1 ++ l2).find? p = l2.find? p := by
  rw [List.find?_append, List.find?_eq_none.mpr h]
  rfl

theorem any_tc_false (l : List BgpPathAttrib) (t : Nat)
    (h : ∀ a ∈ l, a.type_code ≠ t) : (l.any (fun a => a.type_code == t)) = false :=
  List.any_eq_false.mpr (by intro x hx; simpa using h x hx)

/-! ### Helper lemmas on the restore walk -/

theorem restoreSegValues_has4b_false (liter : List Nat) (incr : Bool) (v : List Nat) :
    restoreSegValues false liter incr v = v := by
  induction v generalizing liter incr with
  | nil => rfl
  | cons a rest ih =>
    simp only [restoreSegValues]
    rw [if_neg (by simp), ih]

theorem restoreSegValues_liter_nil (incr : Bool) (v : List Nat) :
    restoreSegValues true [] incr v = v := by
  induction v generalizing incr with
  | nil => rfl
  | cons a rest ih =>
    show a :: restoreSegValues true [] incr rest = a :: rest
    rw [ih]

theorem replaceFromCursor_nil (v : List Nat) : replaceFromCursor [] v = v := by
  cases v <;> rfl

theorem amendedRestoreSeg_nil_tail (v : List Nat) : amendedRestoreSeg [] v = v := by
  simp only [amendedRestoreSeg]
  rw [replaceFromCursor_nil, List.take_append_drop]

theorem amendedRestoreSeg_cons_ne (tail : List Nat) {a : Nat} (rest : List Nat)
    (ha : a ≠ 23456) :
    amendedRestoreSeg tail (a :: rest) = a :: amendedRestoreSeg tail rest := by
  simp only [amendedRestoreSeg]
  rw [List.findIdx_cons]
  have hb : (a == 23456) = false := by simpa using ha
  rw [hb]
  simp [List.take_succ_cons, List.drop_succ_cons]

theorem restoreSegValues_incr_true (liter : List Nat) (v : List Nat) :
    restoreSegValues true liter true v = replaceFromCursor liter v := by
  induction v generalizing liter with
  | nil => cases liter <;> rfl
  | cons a rest ih =>
    cases liter with
    | nil =>
      rw [restoreSegValues_liter_nil, replaceFromCursor_nil]
    | cons t ts =>
      have hl : restoreSegValues true (t :: ts) true (a :: rest)
          = if a = 23456 then t :: restoreSegValues true ts true rest
            else a :: restoreSegValues true ts true rest := by
        simp [restoreSegValues]
      have hr : replaceFromCursor (t :: ts) (a :: rest)
          = (if a = 23456 then t else a) :: replaceFromCursor ts rest := rfl
      rw [hl, hr, ih]
      by_cases ha : a = 23456
      · rw [if_pos ha, if_pos ha]
      · rw [if_neg ha, if_neg ha]

theorem restoreSegValues_eq_amendedAux (tail v : List Nat) :
    restoreSegValues true tail false v = amendedRestoreSeg tail v := by
  induction v generalizing tail with
  | nil => cases tail <;> rfl
  | cons a rest ih =>
    cases tail with
    | nil =>
      have hl : restoreSegValues true [] false (a :: rest)
          = a :: restoreSegValues true [] false rest := by
        simp [restoreSegValues]
      rw [hl, restoreSegValues_liter_nil, amendedRestoreSeg_nil_tail]
    | cons t ts =>
      by_cases ha : a = 23456
      · subst ha
        have hl : restoreSegValues true (t :: ts) false (23456 :: rest)
            = t :: restoreSegValues true ts true rest := by
          simp [restoreSegValues]
        rw [hl, restoreSegValues_incr_true]
        simp only [amendedRestoreSeg]
        rw [List.findIdx_cons]
        simp [replaceFromCursor]
      · have hl : restoreSegValues true (t :: ts) false (a :: rest)
            = a :: restoreSegValues true (t :: ts) false rest := by
          simp [restoreSegValues, ha]
        rw [hl, ih, amendedRestoreSeg_cons_ne _ _ ha]

theorem restoreSegValues_eq_amended (full v : List Nat) :
    restoreSegValues (!full.isEmpty) (full.dropWhile (fun a => a ≤ 0xffff)) false v
      = amendedRestoreSeg (full.dropWhile (fun a => a ≤ 0xffff)) v := by
  cases full with
  | nil =>
    show restoreSegValues false [] false v = amendedRestoreSeg [] v
    rw [restoreSegValues_has4b_false, amendedRestoreSeg_nil_tail]
  | cons x xs =>
    show restoreSegValues true ((x :: xs).dropWhile (fun a => a ≤ 0xffff)) false v
        = amendedRestoreSeg ((x :: xs).dropWhile (fun a => a ≤ 0xffff)) v
    exact restoreSegValues_eq_amendedAux _ _

theorem restoreSegValues_no_trans (has4b : Bool) (liter : List Nat) (v : List Nat)
    (h : ∀ x ∈ v, x ≠ 23456) : restoreSegValues has4b liter false v = v := by
  induction v generalizing liter with
  | nil => rfl
  | cons a rest ih =>
    have ha := h a (List.mem_cons_self a rest)
    cases has4b with
    | false => rw [restoreSegValues_has4b_false]
    | true =>
      cases liter with
      | nil =>
        have hl : restoreSegValues true [] false (a :: rest)
            = a :: restoreSegValues true [] false rest := by
          simp [restoreSegValues]
        rw [hl, restoreSegValues_liter_nil]
      | cons t ts =>
        have hl : restoreSegValues true (t :: ts) false (a :: rest)
            = a :: restoreSegValues true (t :: ts) false rest := by
          simp [restoreSegValues, ha]
        rw [hl, ih _ (fun x hx => h x (List.mem_cons_of_mem _ hx))]

/-- C3 (amended): on a message whose first `AS_PATH` is 2-byte (2-byte
segments) with a companion `AS4_PATH` (4-byte segments), `restoreAsPath`
removes the `AS4_PATH`, sets `is_4b`, and rewrites EACH segment separately by
`amendedRestoreSeg`: the cursor restarts for every segment at the collected
list's first ASN above 65535, and from a segment's first `AS_TRANS` on it
advances past every ASN, replacing exactly the `AS_TRANS` entries. -/
theorem restoreAsPath_characterization (m : BgpUpdateMessage)
    (segs segs4 : List BgpAsPathSegment)
    (h2 : m.getAttrib AS_PATH = some (.asPath false segs))
    (hs2 : ∀ s ∈ segs, s.is_4b = false)
    (h17 : m.getAttrib AS4_PATH = some (.as4path segs4))
    (hs4 : ∀ s ∈ segs4, s.is_4b = true) :
    m.restoreAsPath = (true,
      (m.dropAttrib AS4_PATH).2.setAttrib AS_PATH
        (.asPath true (segs.map (fun s =>
          ⟨true, s.type, amendedRestoreSeg
            ((collectAs4 segs4).dropWhile (fun a => a ≤ 0xffff)) s.value⟩)))) := by
  have h4any : segs4.any (fun s => !s.is_4b) = false := by
    rw [List.any_eq_false]
    intro s hs
    rw [hs4 s hs]
    simp
  have h2any : segs.any (fun s => s.is_4b) = false := by
    rw [List.any_eq_false]
    intro s hs
    rw [hs2 s hs]
    simp
  have hmap : segs.map (fun s =>
        (⟨true, s.type, restoreSegValues (!(collectAs4 segs4).isEmpty)
          ((collectAs4 segs4).dropWhile (fun a => a ≤ 0xffff)) false s.value⟩ :
          BgpAsPathSegment))
      = segs.map (fun s =>
        ⟨true, s.type, amendedRestoreSeg
          ((collectAs4 segs4).dropWhile (fun a => a ≤ 0xffff)) s.value⟩) :=
    List.map_congr_left (fun s _ => by rw [restoreSegValues_eq_amended])
  simp only [BgpUpdateMessage.restoreAsPath, h2, h17, h4any, h2any,
    Bool.false_eq_true, if_false]
  rw [hmap]

/-- Witness for `restoreAsPath_characterization` at the concrete message
`cexC3`. -/
theorem restoreAsPath_characterization_witness :
    cexC3.restoreAsPath = (true,
      (cexC3.dropAttrib AS4_PATH).2.setAttrib AS_PATH
        (.asPath true (([⟨false, AS_SEQUENCE, [23456]⟩, ⟨false, AS_SEQUENCE, [23456]⟩] :
            List BgpAsPathSegment).map (fun s =>
          ⟨true, s.type, amendedRestoreSeg
            ((collectAs4 [⟨true, AS_SEQUENCE, [70000, 80000]⟩]).dropWhile
              (fun a => a ≤ 0xffff)) s.value⟩)))) :=
  restoreAsPath_characterization cexC3
    [⟨false, AS_SEQUENCE, [23456]⟩, ⟨false, AS_SEQUENCE, [23456]⟩]
    [⟨true, AS_SEQUENCE, [70000, 80000]⟩]
    (by decide) (by decide) (by decide) (by decide)

/-- C4 (amended): on a message whose first `AS_PATH` is 4-byte (4-byte
segments) and which carries at most one `AS4_PATH`, `downgradeAsPath`
succeeds, leaves a 2-byte `AS_PATH` in which exactly the ASNs `≥ 65535`
(`0xffff`, not `2^16`) are replaced by `AS_TRANS = 23456`, and installs an
`AS4_PATH` carrying the original 4-byte segments. -/
theorem downgradeAsPath_amended (m : BgpUpdateMessage) (segs : List BgpAsPathSegment)
    (h2 : m.getAttrib AS_PATH = some (.asPath true segs))
    (hs : ∀ s ∈ segs, s.is_4b = true)
    (hc : m.path_attribute.countP (fun a => a.type_code == AS4_PATH) ≤ 1) :
    (m.downgradeAsPath).1 = true ∧
    (m.downgradeAsPath).2.getAttrib AS_PATH
      = some (.asPath false (segs.map (fun s =>
          ⟨false, s.type, s.value.map (fun v => if v ≥ 0xffff then 23456 else v)⟩))) ∧
    (m.downgradeAsPath).2.getAttrib AS4_PATH = some (.as4path segs) := by
  have hany : segs.any (fun s => !s.is_4b) = false := by
    rw [List.any_eq_false]
    intro s hsx
    rw [hs s hsx]
    simp
  have hdropno : ∀ x ∈ dropFirstAttrib m.path_attribute AS4_PATH, x.type_code ≠ AS4_PATH :=
    dropFirstAttrib_no_tc _ _ hc
  have hhas : ((dropFirstAttrib m.path_attribute AS4_PATH).any
      (fun a => a.type_code == AS4_PATH)) = false := any_tc_false _ _ hdropno
  have htc : (BgpPathAttrib.as4path segs).type_code = AS4_PATH := rfl
  have hres : m.downgradeAsPath
      = (true, ⟨m.use_4b_asn, m.withdrawn_routes,
          setFirstAttrib
            (dropFirstAttrib m.path_attribute AS4_PATH ++ [BgpPathAttrib.as4path segs])
            AS_PATH (BgpPathAttrib.asPath false (segs.map (fun s =>
              ⟨false, s.type, s.value.map (fun v => if v ≥ 0xffff then 23456 else v)⟩))),
          m.nlri⟩) := by
    simp only [BgpUpdateMessage.downgradeAsPath, h2, hany, Bool.not_true,
      Bool.false_eq_true, if_false, BgpUpdateMessage.updateAttribute,
      BgpUpdateMessage.dropAttrib, BgpUpdateMessage.addAttrib,
      BgpUpdateMessage.hasAttrib, htc, hhas, BgpUpdateMessage.setAttrib]
  have hfindL : (dropFirstAttrib m.path_attribute AS4_PATH
      ++ [BgpPathAttrib.as4path segs]).find? (fun a => a.type_code == AS_PATH)
      = some (BgpPathAttrib.asPath true segs) := by
    refine find?_append_of_some _ ?_
    rw [find?_dropFirstAttrib_ne _ (show AS_PATH ≠ AS4_PATH by decide)]
    exact h2
  have hsome : ((dropFirstAttrib m.path_attribute AS4_PATH
      ++ [BgpPathAttrib.as4path segs]).find? (fun a => a.type_code == AS_PATH)).isSome := by
    rw [hfindL]
    rfl
  refine ⟨by rw [hres], ?_, ?_⟩
  · rw [hres]
    show (setFirstAttrib (dropFirstAttrib m.path_attribute AS4_PATH
        ++ [BgpPathAttrib.as4path segs]) AS_PATH
        (BgpPathAttrib.asPath false (segs.map (fun s =>
          ⟨false, s.type, s.value.map (fun v => if v ≥ 0xffff then 23456 else v)⟩)))).find?
        (fun a => a.type_code == AS_PATH)
      = some (BgpPathAttrib.asPath false (segs.map (fun s =>
          ⟨false, s.type, s.value.map (fun v => if v ≥ 0xffff then 23456 else v)⟩)))
    exact find?_setFirstAttrib_self _ _ _ rfl hsome
  · rw [hres]
    show (setFirstAttrib (dropFirstAttrib m.path_attribute AS4_PATH
        ++ [BgpPathAttrib.as4path segs]) AS_PATH
        (BgpPathAttrib.asPath false (segs.map (fun s =>
          ⟨false, s.type, s.value.map (fun v => if v ≥ 0xffff then 23456 else v)⟩)))).find?
        (fun a => a.type_code == AS4_PATH)
      = some (BgpPathAttrib.as4path segs)
    rw [find?_setFirstAttrib_ne
        (dropFirstAttrib m.path_attribute AS4_PATH ++ [BgpPathAttrib.as4path segs])
        (BgpPathAttrib.asPath false (segs.map (fun s =>
          ⟨false, s.type, s.value.map (fun v => if v ≥ 0xffff then 23456 else v)⟩)))
        (show AS4_PATH ≠ AS_PATH by decide)
        (by intro hx; simp [BgpPathAttrib.type_code, AS_PATH, AS4_PATH] at hx),
      find?_append_of_none _ (fun a ha => by simpa using hdropno a ha)]
    exact find?_tc_cons_pos [] rfl

/-- Witness for `downgradeAsPath_amended` at the concrete message `cexC4`. -/
theorem downgradeAsPath_amended_witness :
    (cexC4.downgradeAsPath).1 = true ∧
    (cexC4.downgradeAsPath).2.getAttrib AS_PATH
      = some (.asPath false (([⟨true, AS_SEQUENCE, [65535]⟩] :
          List BgpAsPathSegment).map (fun s =>
          ⟨false, s.type, s.value.map (fun v => if v ≥ 0xffff then 23456 else v)⟩))) ∧
    (cexC4.downgradeAsPath).2.getAttrib AS4_PATH
      = some (.as4path [⟨true, AS_SEQUENCE, [65535]⟩]) :=
  downgradeAsPath_amended cexC4 [⟨true, AS_SEQUENCE, [65535]⟩]
    (by decide) (by decide) (by decide)

/-- C5 (amended): `downgradeAsPath (restoreAsPath x)` does not return `x`
itself; on a message `x` whose first `AS_PATH` is 2-byte with 2-byte
segments, every ASN below 65535 (`AS_TRANS = 23456` itself allowed: restore
only logs a warning and keeps it when no `AS4_PATH` is present), and no
`AS4_PATH` attribute present, the composite succeeds and returns `x` with
exactly one attribute appended at the end: an `AS4_PATH` carrying `x`'s
`AS_PATH` segments with `is_4b` set — so `x` itself is never recovered. -/
theorem restore_downgrade_roundtrip_amended (m : BgpUpdateMessage)
    (segs : List BgpAsPathSegment)
    (h2 : m.getAttrib AS_PATH = some (.asPath false segs))
    (hs : ∀ s ∈ segs, s.is_4b = false)
    (hv : ∀ s ∈ segs, ∀ v ∈ s.value, v < 0xffff)
    (h17 : ∀ a ∈ m.path_attribute, a.type_code ≠ AS4_PATH) :
    (m.restoreAsPath).1 = true ∧
    ((m.restoreAsPath).2.downgradeAsPath).1 = true ∧
    ((m.restoreAsPath).2.downgradeAsPath).2
      = ⟨m.use_4b_asn, m.withdrawn_routes,
          m.path_attribute
            ++ [BgpPathAttrib.as4path (segs.map (fun s => ⟨true, s.type, s.value⟩))],
          m.nlri⟩ := by
  have h2any : segs.any (fun s => s.is_4b) = false := by
    rw [List.any_eq_false]
    intro s hsx
    rw [hs s hsx]
    simp
  have hA : m.getAttrib AS4_PATH = none := by
    show m.path_attribute.find? (fun a => a.type_code == AS4_PATH) = none
    exact List.find?_eq_none.mpr (fun a ha => by simpa using h17 a ha)
  have hrest : m.restoreAsPath = (true, ⟨m.use_4b_asn, m.withdrawn_routes,
      setFirstAttrib m.path_attribute AS_PATH
        (BgpPathAttrib.asPath true (segs.map (fun s => ⟨true, s.type, s.value⟩))),
      m.nlri⟩) := by
    simp only [BgpUpdateMessage.restoreAsPath, h2, hA, h2any, Bool.false_eq_true,
      if_false, BgpUpdateMessage.setAttrib]
  have hfind2 : m.path_attribute.find? (fun a => a.type_code == AS_PATH)
      = some (BgpPathAttrib.asPath false segs) := h2
  have hfind2A : (setFirstAttrib m.path_attribute AS_PATH
      (BgpPathAttrib.asPath true (segs.map (fun s => ⟨true, s.type, s.value⟩)))).find?
      (fun a => a.type_code == AS_PATH)
      = some (BgpPathAttrib.asPath true (segs.map (fun s => ⟨true, s.type, s.value⟩))) :=
    find?_setFirstAttrib_self m.path_attribute AS_PATH
      (BgpPathAttrib.asPath true (segs.map (fun s => ⟨true, s.type, s.value⟩))) rfl
      (by rw [hfind2]; rfl)
  have hno17A : ∀ x ∈ setFirstAttrib m.path_attribute AS_PATH
      (BgpPathAttrib.asPath true (segs.map (fun s => ⟨true, s.type, s.value⟩))),
      x.type_code ≠ AS4_PATH := by
    intro x hx
    rcases mem_setFirstAttrib hx with hx' | rfl
    · exact h17 x hx'
    · intro hxx
      simp [BgpPathAttrib.type_code, AS_PATH, AS4_PATH] at hxx
  have hanyA : ((setFirstAttrib m.path_attribute AS_PATH
      (BgpPathAttrib.asPath true (segs.map (fun s => ⟨true, s.type, s.value⟩)))).any
      (fun a => a.type_code == AS4_PATH)) = false := any_tc_false _ _ hno17A
  have hdropA : dropFirstAttrib (setFirstAttrib m.path_attribute AS_PATH
      (BgpPathAttrib.asPath true (segs.map (fun s => ⟨true, s.type, s.value⟩))))
      AS4_PATH
      = setFirstAttrib m.path_attribute AS_PATH
          (BgpPathAttrib.asPath true (segs.map (fun s => ⟨true, s.type, s.value⟩))) :=
    dropFirstAttrib_of_none _ _ hno17A
  have hany4' : ((segs.map (fun s => (⟨true, s.type, s.value⟩ : BgpAsPathSegment))).any
      (fun s => !s.is_4b)) = false := by
    rw [List.any_eq_false]
    intro s hsx
    rcases List.mem_map.mp hsx with ⟨x, hx', rfl⟩
    simp
  have hmapback : (segs.map (fun s => (⟨true, s.type, s.value⟩ : BgpAsPathSegment))).map
      (fun s => (⟨false, s.type, s.value.map (fun v => if v ≥ 0xffff then 23456 else v)⟩ :
        BgpAsPathSegment))
      = segs := by
    rw [List.map_map]
    have hpt : ∀ s ∈ segs, ((fun s => (⟨false, s.type,
        s.value.map (fun v => if v ≥ 0xffff then 23456 else v)⟩ : BgpAsPathSegment)) ∘
        (fun s => (⟨true, s.type, s.value⟩ : BgpAsPathSegment))) s = s := by
      intro s hs'
      obtain ⟨b4, ty, vals⟩ := s
      have hb4 : b4 = false := hs _ hs'
      subst hb4
      have hvals : vals.map (fun v => if v ≥ 0xffff then 23456 else v) = vals := by
        have hcongr : vals.map (fun v => if v ≥ 0xffff then 23456 else v)
            = vals.map (fun v => v) :=
          List.map_congr_left (fun v hv' =>
            if_neg (not_le.mpr (hv _ hs' v hv')))
        rw [hcongr]
        simp
      simp [Function.comp, hvals]
    rw [List.map_congr_left hpt]
    simp
  have hdowncalc : ((m.restoreAsPath).2).downgradeAsPath
      = (true, ⟨m.use_4b_asn, m.withdrawn_routes,
          m.path_attribute
            ++ [BgpPathAttrib.as4path (segs.map (fun s => ⟨true, s.type, s.value⟩))],
          m.nlri⟩) := by
    rw [hrest]
    have htc' : (BgpPathAttrib.as4path (segs.map
        (fun s => (⟨true, s.type, s.value⟩ : BgpAsPathSegment)))).type_code
        = AS4_PATH := rfl
    simp only [BgpUpdateMessage.downgradeAsPath, BgpUpdateMessage.getAttrib, hfind2A,
      Bool.not_true, Bool.false_eq_true, if_false, hany4',
      BgpUpdateMessage.updateAttribute, BgpUpdateMessage.dropAttrib,
      BgpUpdateMessage.addAttrib, BgpUpdateMessage.hasAttrib, htc', hdropA, hanyA,
      BgpUpdateMessage.setAttrib]
    have hsomeA : ((setFirstAttrib m.path_attribute AS_PATH
        (BgpPathAttrib.asPath true (segs.map (fun s => ⟨true, s.type, s.value⟩)))).find?
        (fun a => a.type_code == AS_PATH)).isSome := by
      rw [hfind2A]
      rfl
    have hbtc : (BgpPathAttrib.asPath true
        (segs.map (fun s => (⟨true, s.type, s.value⟩ : BgpAsPathSegment)))).type_code
        = AS_PATH := rfl
    rw [setFirstAttrib_append _ _ _ _ hsomeA,
      setFirstAttrib_setFirstAttrib _ _ _ _ hbtc, hmapback,
      setFirstAttrib_of_find? _ _ _ hfind2]
  exact ⟨by rw [hrest], by rw [hdowncalc], by rw [hdowncalc]⟩

/-- Witness for `restore_downgrade_roundtrip_amended` at the concrete message
`msgC5trans`, whose `AS_PATH` contains `AS_TRANS = 23456` itself. -/
theorem restore_downgrade_roundtrip_amended_witness :
    (msgC5trans.restoreAsPath).1 = true ∧
    ((msgC5trans.restoreAsPath).2.downgradeAsPath).1 = true ∧
    ((msgC5trans.restoreAsPath).2.downgradeAsPath).2
      = ⟨msgC5trans.use_4b_asn, msgC5trans.withdrawn_routes,
          msgC5trans.path_attribute
            ++ [BgpPathAttrib.as4path (([⟨false, AS_SEQUENCE, [23456, 65000]⟩] :
                List BgpAsPathSegment).map (fun s => ⟨true, s.type, s.value⟩))],
          msgC5trans.nlri⟩ :=
  restore_downgrade_roundtrip_amended msgC5trans [⟨false, AS_SEQUENCE, [23456, 65000]⟩]
    (by decide) (by decide) (by decide)
    (by decide)

/-! ### C8, C9, C10 -/

theorem insertPriv_update_id (gt : BgpRib6Entry → BgpRib6Entry → Bool) (s : Rib6State)
    (src : Nat) (route : Prefix6) (g l : Nat) (attribs : List BgpPathAttrib)
    (w : Int) : (BgpRib6.insertPriv gt s src route g l attribs w).2.update_id
      = s.update_id := rfl

theorem foldl_update_id_invariant {β : Type} (f : (Nat × Rib6State) → β → (Nat × Rib6State))
    (hf : ∀ acc b, ((f acc b).2).update_id = acc.2.update_id) :
    ∀ (l : List β) (acc : Nat × Rib6State),
      (((l.foldl f acc)).2).update_id = acc.2.update_id := by
  intro l
  induction l with
  | nil => intro acc; rfl
  | cons b bs ih =>
    intro acc
    rw [List.foldl_cons, ih, hf]

/-- C8: the v6 RIB's `update_id` counter never decreases under any RIB
operation, and each externally-initiated batch insert (the two `insert`
overloads taking a vector of routes) increments it exactly once, regardless
of how many routes were actually inserted.  Quantified over every tie-break
relation `gt`, since `BgpRib6Entry::operator>` is outside the snapshot. -/
theorem rib6_update_id_monotone (gt : BgpRib6Entry → BgpRib6Entry → Bool)
    (op : Rib6Op) (s : Rib6State) :
    s.update_id ≤ (applyRib6Op gt op s).update_id ∧
    (op.isBatchInsert = true → (applyRib6Op gt op s).update_id = s.update_id + 1) := by
  cases op with
  | insertPeer src route g l attribs w =>
    refine ⟨?_, fun h => Bool.noConfusion h⟩
    show s.update_id ≤ (BgpRib6.insert gt s src route g l attribs w).2.update_id
    by_cases hb : (BgpRib6.insertPriv gt s src route g l attribs w).1
    · simp [BgpRib6.insert, hb, insertPriv_update_id]
    · simp [BgpRib6.insert, hb, insertPriv_update_id]
  | insertPeerBatch src routes g l attribs w =>
    have hfold := foldl_update_id_invariant
      (fun (acc : Nat × Rib6State) route =>
        let step := BgpRib6.insertPriv gt acc.2 src route l g attribs w
        (if step.1 then acc.1 + 1 else acc.1, step.2))
      (fun acc b => insertPriv_update_id gt acc.2 src b l g attribs w)
      routes (0, s)
    have hkey : (applyRib6Op gt (.insertPeerBatch src routes g l attribs w) s).update_id
        = s.update_id + 1 := congrArg (fun n => n + 1) hfold
    exact ⟨by rw [hkey]; exact Nat.le_succ _, fun _ => hkey⟩
  | insertLocal route g l w =>
    refine ⟨?_, fun h => Bool.noConfusion h⟩
    show s.update_id ≤ (BgpRib6.insertLocal s route g l w).2.update_id
    simp only [BgpRib6.insertLocal]
    split
    · exact Nat.le_refl _
    · dsimp only
      split
      · exact Nat.le_succ _
      · exact Nat.le_refl _
  | insertLocalBatch routes g l w =>
    exact ⟨Nat.le_succ _, fun _ => rfl⟩
  | withdrawOne src route =>
    exact ⟨Nat.le_refl _, fun h => Bool.noConfusion h⟩
  | withdrawMany src routes =>
    have hfold := foldl_update_id_invariant
      (fun (acc : Nat × Rib6State) route =>
        let r := BgpRib6.withdraw acc.2 src route
        (if r.1 then acc.1 + 1 else acc.1, r.2))
      (fun acc b => rfl) routes (0, s)
    exact ⟨Nat.le_of_eq hfold.symm, fun h => Bool.noConfusion h⟩
  | discardFrom src =>
    exact ⟨Nat.le_refl _, fun h => Bool.noConfusion h⟩

/-- Witness for `rib6_update_id_monotone`: a local batch insert of one route
into the empty RIB bumps `update_id` from 0 to 1. -/
theorem rib6_update_id_monotone_witness :
    (applyRib6Op (fun _ _ => false) (.insertLocalBatch [⟨7, 64⟩] 1 2 0)
      ⟨[], 0⟩).update_id = 0 + 1 :=
  (rib6_update_id_monotone (fun _ _ => false) (.insertLocalBatch [⟨7, 64⟩] 1 2 0)
    ⟨[], 0⟩).2 (by decide)

theorem withdrawGo_not_found (src : Nat) (route : Prefix6) (l : List BgpRib6Entry)
    (h : ∀ e ∈ l, ¬(e.route = route ∧ e.src_router_id = src)) :
    withdrawGo src route l = (false, l) := by
  induction l with
  | nil => rfl
  | cons e rest ih =>
    simp only [withdrawGo]
    rw [if_neg (h e (List.mem_cons_self _ _)),
      ih (fun x hx => h x (List.mem_cons_of_mem _ hx))]

theorem withdrawGo_found (src : Nat) (route : Prefix6) (l : List BgpRib6Entry)
    (hc : l.countP (fun e => decide (e.route = route ∧ e.src_router_id = src)) ≤ 1)
    (hex : ∃ e ∈ l, e.route = route ∧ e.src_router_id = src) :
    withdrawGo src route l
      = (true, l.filter (fun e => !decide (e.route = route ∧ e.src_router_id = src))) := by
  induction l with
  | nil =>
    rcases hex with ⟨e, he, _⟩
    cases he
  | cons e rest ih =>
    simp only [withdrawGo]
    by_cases hm : e.route = route ∧ e.src_router_id = src
    · rw [if_pos hm]
      rw [List.countP_cons] at hc
      rw [if_pos (by simpa using hm)] at hc
      have h0 : rest.countP (fun e => decide (e.route = route ∧ e.src_router_id = src)) = 0 := by
        omega
      have hall := List.countP_eq_zero.mp h0
      rw [List.filter_cons]
      rw [if_neg (by simpa using hm)]
      rw [List.filter_eq_self.mpr (fun x hx => by
        rw [Bool.not_eq_true', decide_eq_false_iff_not]
        exact fun hcon => hall x hx (decide_eq_true hcon))]
    · rw [if_neg hm]
      have hex' : ∃ x ∈ rest, x.route = route ∧ x.src_router_id = src := by
        rcases hex with ⟨x, hx, hxx⟩
        rcases List.mem_cons.mp hx with rfl | hx'
        · exact absurd hxx hm
        · exact ⟨x, hx', hxx⟩
      have hc' : rest.countP (fun e => decide (e.route = route ∧ e.src_router_id = src)) ≤ 1 := by
        rw [List.countP_cons] at hc
        exact le_trans (Nat.le_add_right _ _) hc
      rw [ih hc' hex']
      rw [List.filter_cons, if_pos (by
        rw [Bool.not_eq_true', decide_eq_false_iff_not]; exact hm)]

/-- C9: when the RIB holds at most one entry per `(src_router_id, route)`
pair, `withdraw` returns true and removes exactly the matching entry (every
other entry and the `update_id` are untouched) when such an entry exists,
and returns false leaving the RIB unchanged when none does. -/
theorem rib6_withdraw_exact (s : Rib6State) (src : Nat) (route : Prefix6)
    (hc : s.rib.countP (fun e => decide (e.route = route ∧ e.src_router_id = src)) ≤ 1) :
    ((∃ e ∈ s.rib, e.route = route ∧ e.src_router_id = src) →
      BgpRib6.withdraw s src route
        = (true, ⟨s.rib.filter
            (fun e => !decide (e.route = route ∧ e.src_router_id = src)), s.update_id⟩)) ∧
    ((∀ e ∈ s.rib, ¬(e.route = route ∧ e.src_router_id = src)) →
      BgpRib6.withdraw s src route = (false, s)) := by
  constructor
  · intro hex
    show (let r := withdrawGo src route s.rib
      ((r.1, { s with rib := r.2 }) : Bool × Rib6State)) = _
    rw [withdrawGo_found src route s.rib hc hex]
  · intro hnone
    show (let r := withdrawGo src route s.rib
      ((r.1, { s with rib := r.2 }) : Bool × Rib6State)) = _
    rw [withdrawGo_not_found src route s.rib hnone]

/-- Witness for `rib6_withdraw_exact`: withdrawing the only entry of a
one-entry RIB empties it and reports true. -/
theorem rib6_withdraw_exact_witness :
    BgpRib6.withdraw ⟨[⟨⟨7, 64⟩, 1, 11, 22, [], 0, 0⟩], 5⟩ 1 ⟨7, 64⟩
      = (true, ⟨[], 5⟩) := by
  have h := (rib6_withdraw_exact ⟨[⟨⟨7, 64⟩, 1, 11, 22, [], 0, 0⟩], 5⟩ 1 ⟨7, 64⟩
    (by decide)).1 (by decide)
  exact h.trans (by decide)

/-- C10: `addAttrib` rejects (returning false, message unchanged) when an
attribute of the same type code is present, appends a clone otherwise, and
therefore can never introduce a duplicate type code into the attribute
list. -/
theorem addAttrib_no_duplicate (m : BgpUpdateMessage) (a : BgpPathAttrib) :
    (m.hasAttrib a.type_code = true → m.addAttrib a = (false, m)) ∧
    (m.hasAttrib a.type_code = false →
      m.addAttrib a = (true, { m with path_attribute := m.path_attribute ++ [a] })) ∧
    ((m.path_attribute.map BgpPathAttrib.type_code).Nodup →
      (((m.addAttrib a).2).path_attribute.map BgpPathAttrib.type_code).Nodup) := by
  refine ⟨?_, ?_, ?_⟩
  · intro h
    unfold BgpUpdateMessage.addAttrib
    rw [if_pos h]
  · intro h
    unfold BgpUpdateMessage.addAttrib
    rw [if_neg (by rw [h]; exact Bool.false_ne_true)]
  · intro hnd
    by_cases h : m.hasAttrib a.type_code = true
    · unfold BgpUpdateMessage.addAttrib
      rw [if_pos h]
      exact hnd
    · unfold BgpUpdateMessage.addAttrib
      rw [if_neg h]
      show ((m.path_attribute ++ [a]).map BgpPathAttrib.type_code).Nodup
      rw [List.map_append, List.nodup_append]
      refine ⟨hnd, List.nodup_singleton _, ?_⟩
      show List.Disjoint _ _
      rw [show [a].map BgpPathAttrib.type_code = [a.type_code] from rfl,
        List.disjoint_singleton]
      intro hmem
      rcases List.mem_map.mp hmem with ⟨x, hx, hxtc⟩
      refine h ?_
      unfold BgpUpdateMessage.hasAttrib
      rw [List.any_eq_true]
      exact ⟨x, hx, by simp [hxtc]⟩

/-- Witness for `addAttrib_no_duplicate`: adding a NEXT_HOP to a message
holding only an ORIGIN appends it. -/
theorem addAttrib_no_duplicate_witness :
    BgpUpdateMessage.addAttrib ⟨true, [], [.origin 0], []⟩ (.nexthop 9)
      = (true, ⟨true, [], [.origin 0, .nexthop 9], []⟩) := by
  have h := (addAttrib_no_duplicate ⟨true, [], [.origin 0], []⟩ (.nexthop 9)).2.1
    (by decide)
  exact h.trans (by decide)

end LibBgp
